import Mathlib

/-!
# Verification of the NimBLE Link-Layer advertising state machine and PHY driver

Shallow embedding of `external/nimble/controller/src/ble_ll_adv.c` and
`external/nimble/drivers/nrf51/src/ble_phy.c` (nRF5_SDK repository).

Machine integers are modelled as `Nat` with explicit `% 2^32` where uint32
wraparound matters.  Byte buffers (HCI command buffers, received PDUs) are
modelled as functions `Nat → Nat` giving the byte at each offset.  Device
addresses (6 bytes) are modelled as `List Nat`.  Hardware and OS collaborators
that live outside the repository (`os_time_get`, `cputime_get32`,
`cputime_usecs_to_ticks`, `rand`, the resolving list, the whitelist, the
connection layer, the radio registers) are supplied through explicit
environment records so that the control flow of the embedded functions is
exactly that of the C source.
-/

/-! ## Constants

The numeric constants below come from the NimBLE headers
(`nimble/hci_common.h`, `nimble/ble.h`, `controller/ble_ll_adv.h`,
`controller/ble_phy.h`, `ble/xcvr.h`), which are not part of the source tree;
their values are the standard Bluetooth/NimBLE values referenced by the spec
(advertising payloads of at most 31 bytes, advertising channels 37/38/39,
the 1.28 s high-duty deadline, the 0.625 ms advertising interval unit, the
10 ms maximum advertising delay). -/

def BLE_ERR_SUCCESS : Nat := 0
def BLE_ERR_CMD_DISALLOWED : Nat := 0x0C
def BLE_ERR_UNSUPPORTED : Nat := 0x11
def BLE_ERR_INV_HCI_CMD_PARMS : Nat := 0x12
def BLE_ERR_DIR_ADV_TMO : Nat := 0x3C

def BLE_HCI_ADV_TYPE_ADV_IND : Nat := 0
def BLE_HCI_ADV_TYPE_ADV_DIRECT_IND_HD : Nat := 1
def BLE_HCI_ADV_TYPE_ADV_SCAN_IND : Nat := 2
def BLE_HCI_ADV_TYPE_ADV_NONCONN_IND : Nat := 3
def BLE_HCI_ADV_TYPE_ADV_DIRECT_IND_LD : Nat := 4

def BLE_HCI_ADV_OWN_ADDR_PUBLIC : Nat := 0
def BLE_HCI_ADV_OWN_ADDR_RANDOM : Nat := 1
def BLE_HCI_ADV_OWN_ADDR_MAX : Nat := 3
def BLE_HCI_ADV_PEER_ADDR_MAX : Nat := 1

def BLE_HCI_ADV_FILT_NONE : Nat := 0
def BLE_HCI_ADV_FILT_MAX : Nat := 3

def BLE_HCI_ADV_ITVL_MAX : Nat := 0x4000
def BLE_HCI_ADV_ITVL_DEF : Nat := 0x800
def BLE_HCI_ADV_CHANMASK_DEF : Nat := 0x07

def BLE_LL_ADV_ITVL : Nat := 625
def BLE_LL_ADV_ITVL_MIN : Nat := 32
def BLE_LL_ADV_ITVL_NONCONN_MIN : Nat := 160
def BLE_LL_ADV_DELAY_MS_MAX : Nat := 10
def BLE_LL_ADV_PDU_ITVL_HD_MS_MAX : Nat := 3750
def BLE_LL_ADV_STATE_HD_MAX : Nat := 1280

def BLE_DEV_ADDR_LEN : Nat := 6
def BLE_ADV_DATA_MAX_LEN : Nat := 31
def BLE_SCAN_RSP_DATA_MAX_LEN : Nat := 31
def BLE_LL_PDU_HDR_LEN : Nat := 2
def BLE_PHY_ADV_CHAN_START : Nat := 37

def BLE_ADV_PDU_TYPE_SCAN_REQ : Nat := 3
def BLE_ADV_PDU_TYPE_CONNECT_REQ : Nat := 5
def BLE_ADV_PDU_HDR_TXADD_MASK : Nat := 0x40

def BLE_ADDR_TYPE_PUBLIC : Nat := 0
def BLE_ADDR_TYPE_RANDOM : Nat := 1

def BLE_PHY_STATE_IDLE : Nat := 0
def BLE_PHY_STATE_TX : Nat := 2
def BLE_PHY_TRANSITION_TX_RX : Nat := 2
def BLE_PHY_ERR_RADIO_STATE : Nat := 1

/-- nRF51 RADIO->STATE value while actively transmitting
(`RADIO_STATE_STATE_Tx` from `nrf51_bitfields.h`, outside the source tree). -/
def RADIO_STATE_STATE_Tx : Nat := 11

/-- Transceiver scheduling delay from `ble/xcvr.h` (header outside the source
tree; the exact value is immaterial to the claims, only its use as an offset). -/
def XCVR_TX_SCHED_DELAY_USECS : Nat := 290

/-! ## uint32 arithmetic helpers -/

/-- Wraparound subtraction of two uint32 values. -/
def u32sub (a b : Nat) : Nat := (a % 2 ^ 32 + (2 ^ 32 - b % 2 ^ 32)) % 2 ^ 32

/-- Wraparound addition of two uint32 values. -/
def u32add (a b : Nat) : Nat := (a + b) % 2 ^ 32

/-- Reinterpret a uint32 value as a signed int32 (the C cast `(int32_t)x`). -/
def toInt32 (x : Nat) : Int :=
  if x % 2 ^ 32 < 2 ^ 31 then ((x % 2 ^ 32 : Nat) : Int)
  else ((x % 2 ^ 32 : Nat) : Int) - 2 ^ 32

/-- Little-endian 16-bit read from a byte buffer (`le16toh`). -/
def le16toh (cmd : Nat → Nat) (off : Nat) : Nat := cmd off + 256 * cmd (off + 1)

/-- Read a 6-byte device address from a byte buffer at a given offset. -/
def bufAddr (buf : Nat → Nat) (off : Nat) : List Nat :=
  (List.range BLE_DEV_ADDR_LEN).map fun i => buf (off + i)

/-- C `memcpy(dst, src, src.length)` into a larger array: the copied bytes
replace the prefix of the destination, the tail keeps its old contents. -/
def memcpyHead (dst src : List Nat) : List Nat := src ++ dst.drop src.length

/-! ## The advertising state machine (`struct ble_ll_adv_sm`)

The embedded fields are those of the C structure; the OS event
(`adv_txdone_ev`) and the embedded schedule item (`adv_sch`) are radio/OS
bookkeeping objects manipulated only through the scheduler interface and are
not part of the advertising data model. -/

structure BleLLAdvSm where
  enabled : Nat
  adv_type : Nat
  adv_len : Nat
  adv_chanmask : Nat
  adv_filter_policy : Nat
  own_addr_type : Nat
  peer_addr_type : Nat
  adv_chan : Nat
  scan_rsp_len : Nat
  adv_pdu_len : Nat
  adv_rpa_index : Int
  adv_directed : Nat
  adv_txadd : Nat
  adv_rxadd : Nat
  adv_itvl_min : Nat
  adv_itvl_max : Nat
  adv_itvl_usecs : Nat
  adv_event_start_time : Nat
  adv_pdu_start_time : Nat
  adv_dir_hd_end_time : Nat
  adv_rpa_timer : Nat
  adva : List Nat
  adv_rpa : List Nat
  peer_addr : List Nat
  initiator_addr : List Nat
  adv_data : List Nat
  scan_rsp_data : List Nat
  deriving Repr, DecidableEq

/-- The state produced by `ble_ll_adv_init` (`memset` to zero followed by the
default interval and channel-mask assignments). -/
def ble_ll_adv_init : BleLLAdvSm :=
  { enabled := 0, adv_type := 0, adv_len := 0, adv_chanmask := BLE_HCI_ADV_CHANMASK_DEF
    adv_filter_policy := 0, own_addr_type := 0, peer_addr_type := 0, adv_chan := 0
    scan_rsp_len := 0, adv_pdu_len := 0, adv_rpa_index := 0, adv_directed := 0
    adv_txadd := 0, adv_rxadd := 0
    adv_itvl_min := BLE_HCI_ADV_ITVL_DEF, adv_itvl_max := BLE_HCI_ADV_ITVL_DEF
    adv_itvl_usecs := 0, adv_event_start_time := 0, adv_pdu_start_time := 0
    adv_dir_hd_end_time := 0, adv_rpa_timer := 0
    adva := List.replicate 6 0, adv_rpa := List.replicate 6 0
    peer_addr := List.replicate 6 0, initiator_addr := List.replicate 6 0
    adv_data := List.replicate 31 0, scan_rsp_data := List.replicate 31 0 }

/-! ## `ble_ll_adv_set_adv_params` -/

/-- State writes the `switch (adv_type)` of `ble_ll_adv_set_adv_params`
performs on the context before validation has finished
(ble_ll_adv.c:556-580): `adv_directed` is cleared, then for the two directed
types it is set and the peer address is copied from the command buffer. -/
def adv_params_presets (advsm : BleLLAdvSm) (cmd : Nat → Nat) : BleLLAdvSm :=
  let directed :=
    cmd 4 = BLE_HCI_ADV_TYPE_ADV_DIRECT_IND_HD ∨
    cmd 4 = BLE_HCI_ADV_TYPE_ADV_DIRECT_IND_LD
  let advsm : BleLLAdvSm := { advsm with adv_directed := if directed then 1 else 0 }
  if directed then { advsm with peer_addr := bufAddr cmd 7 } else advsm

/-- Under privacy (`BLE_LL_CFG_FEAT_LL_PRIVACY == 1`), own address types above
random copy the peer address and reset the RPA timer so that a fresh RPA is
generated (ble_ll_adv.c:598-605). -/
def adv_params_rpa_reset (osTime : Nat) (advsm : BleLLAdvSm)
    (cmd : Nat → Nat) : BleLLAdvSm :=
  if cmd 5 > BLE_HCI_ADV_OWN_ADDR_RANDOM then
    { advsm with peer_addr := bufAddr cmd 7, adv_rpa_timer := osTime }
  else advsm

/-- Embedding of `ble_ll_adv_set_adv_params` (ble_ll_adv.c:523-634).

`privacy` is the compile-time configuration flag `BLE_LL_CFG_FEAT_LL_PRIVACY`;
`osTime` is the value `os_time_get()` would return.  The function returns the
HCI status code together with the updated advertising context.  Note that, as
in the C source, `adv_directed` (and for directed types `peer_addr`, and under
privacy `peer_addr` / `adv_rpa_timer`) are written before all the parameter
checks have run. -/
def ble_ll_adv_set_adv_params (privacy : Bool) (osTime : Nat)
    (advsm : BleLLAdvSm) (cmd : Nat → Nat) : Nat × BleLLAdvSm :=
  if advsm.enabled ≠ 0 then (BLE_ERR_CMD_DISALLOWED, advsm)
  else
    let adv_itvl_min0 := le16toh cmd 0
    let adv_itvl_max0 := le16toh cmd 2
    let adv_type := cmd 4
    let adv_filter_policy0 := cmd 14
    -- switch (adv_type), with the HD case falling through into the LD case
    let min_itvl :=
      if adv_type = BLE_HCI_ADV_TYPE_ADV_DIRECT_IND_HD then 0
      else if adv_type = BLE_HCI_ADV_TYPE_ADV_DIRECT_IND_LD then BLE_LL_ADV_ITVL_MIN
      else if adv_type = BLE_HCI_ADV_TYPE_ADV_IND then BLE_LL_ADV_ITVL_MIN
      else if adv_type = BLE_HCI_ADV_TYPE_ADV_NONCONN_IND ∨
              adv_type = BLE_HCI_ADV_TYPE_ADV_SCAN_IND then BLE_LL_ADV_ITVL_NONCONN_MIN
      else 0xFFFF
    let adv_itvl_min :=
      if adv_type = BLE_HCI_ADV_TYPE_ADV_DIRECT_IND_HD then 0 else adv_itvl_min0
    let adv_itvl_max :=
      if adv_type = BLE_HCI_ADV_TYPE_ADV_DIRECT_IND_HD then 0 else adv_itvl_max0
    let directed :=
      adv_type = BLE_HCI_ADV_TYPE_ADV_DIRECT_IND_HD ∨
      adv_type = BLE_HCI_ADV_TYPE_ADV_DIRECT_IND_LD
    let adv_filter_policy :=
      if directed then BLE_HCI_ADV_FILT_NONE else adv_filter_policy0
    let advsm := adv_params_presets advsm cmd
    if adv_itvl_min > adv_itvl_max ∨ adv_itvl_min < min_itvl ∨
       adv_itvl_min > BLE_HCI_ADV_ITVL_MAX ∨ adv_itvl_max > BLE_HCI_ADV_ITVL_MAX then
      (BLE_ERR_INV_HCI_CMD_PARMS, advsm)
    else
      let own_addr_type := cmd 5
      let peer_addr_type := cmd 6
      if own_addr_type > BLE_HCI_ADV_OWN_ADDR_MAX ∨
         peer_addr_type > BLE_HCI_ADV_PEER_ADDR_MAX then
        (BLE_ERR_INV_HCI_CMD_PARMS, advsm)
      else if privacy then
        let advsm := adv_params_rpa_reset osTime advsm cmd
        let adv_chanmask := cmd 13
        if adv_chanmask &&& 0xF8 ≠ 0 ∨ adv_chanmask = 0 then
          (BLE_ERR_INV_HCI_CMD_PARMS, advsm)
        else if adv_filter_policy > BLE_HCI_ADV_FILT_MAX then
          (BLE_ERR_INV_HCI_CMD_PARMS, advsm)
        else
          (BLE_ERR_SUCCESS,
           { advsm with own_addr_type := own_addr_type, peer_addr_type := peer_addr_type
                        adv_filter_policy := adv_filter_policy, adv_chanmask := adv_chanmask
                        adv_itvl_min := adv_itvl_min, adv_itvl_max := adv_itvl_max
                        adv_type := adv_type })
      else
        if own_addr_type > BLE_HCI_ADV_OWN_ADDR_RANDOM then
          (BLE_ERR_UNSUPPORTED, advsm)
        else
          let adv_chanmask := cmd 13
          if adv_chanmask &&& 0xF8 ≠ 0 ∨ adv_chanmask = 0 then
            (BLE_ERR_INV_HCI_CMD_PARMS, advsm)
          else if adv_filter_policy > BLE_HCI_ADV_FILT_MAX then
            (BLE_ERR_INV_HCI_CMD_PARMS, advsm)
          else
            (BLE_ERR_SUCCESS,
             { advsm with own_addr_type := own_addr_type, peer_addr_type := peer_addr_type
                          adv_filter_policy := adv_filter_policy, adv_chanmask := adv_chanmask
                          adv_itvl_min := adv_itvl_min, adv_itvl_max := adv_itvl_max
                          adv_type := adv_type })

/-! ## `ble_ll_adv_set_adv_data` / `ble_ll_adv_set_scan_rsp_data` -/

/-- Embedding of `ble_ll_adv_set_adv_data` (ble_ll_adv.c:856-874). -/
def ble_ll_adv_set_adv_data (cmd : Nat → Nat) (_len : Nat)
    (advsm : BleLLAdvSm) : Nat × BleLLAdvSm :=
  let datalen := cmd 0
  if datalen > BLE_ADV_DATA_MAX_LEN then (BLE_ERR_INV_HCI_CMD_PARMS, advsm)
  else
    (0, { advsm with adv_len := datalen
                     adv_data := memcpyHead advsm.adv_data
                       ((List.range datalen).map fun i => cmd (1 + i)) })

/-- Embedding of `ble_ll_adv_set_scan_rsp_data` (ble_ll_adv.c:827-845). -/
def ble_ll_adv_set_scan_rsp_data (cmd : Nat → Nat) (_len : Nat)
    (advsm : BleLLAdvSm) : Nat × BleLLAdvSm :=
  let datalen := cmd 0
  if datalen > BLE_SCAN_RSP_DATA_MAX_LEN then (BLE_ERR_INV_HCI_CMD_PARMS, advsm)
  else
    (0, { advsm with scan_rsp_len := datalen
                     scan_rsp_data := memcpyHead advsm.scan_rsp_data
                       ((List.range datalen).map fun i => cmd (1 + i)) })

/-! ## Enable / disable and the start of the state machine -/

/-- Environment for the Link-Layer task-side operations: device addresses,
OS time, and the privacy (RPA) collaborators `ble_ll_resolv_*` /
`ble_ll_is_rpa`, which live outside the advertising module. -/
structure LLEnv where
  privacy : Bool
  dev_addr : List Nat
  random_addr : List Nat
  random_addr_valid : Bool
  os_time : Nat
  rpa_tmo : Nat
  gen_rpa_local : List Nat
  gen_rpa_init : List Nat
  is_rpa : List Nat → Nat → Bool

/-- Embedding of `ble_ll_adv_chk_rpa_timeout` (ble_ll_adv.c:141-179), compiled
only when `BLE_LL_CFG_FEAT_LL_PRIVACY == 1`.  The two `ble_ll_resolv_gen_rpa`
outputs are the environment's `gen_rpa_local` / `gen_rpa_init`. -/
def ble_ll_adv_chk_rpa_timeout (env : LLEnv) (advsm : BleLLAdvSm) : BleLLAdvSm :=
  if advsm.own_addr_type > BLE_HCI_ADV_OWN_ADDR_RANDOM then
    if toInt32 (u32sub env.os_time advsm.adv_rpa_timer) ≥ 0 then
      let advsm : BleLLAdvSm := { advsm with adva := env.gen_rpa_local }
      let advsm : BleLLAdvSm :=
        if advsm.adv_directed ≠ 0 then
          let advsm : BleLLAdvSm := { advsm with initiator_addr := env.gen_rpa_init }
          if env.is_rpa advsm.initiator_addr 1 then
            { advsm with adv_rxadd := 1 }
          else if advsm.own_addr_type % 2 = 1 then
            { advsm with adv_rxadd := 1 }
          else
            { advsm with adv_rxadd := 0 }
        else advsm
      let advsm : BleLLAdvSm := { advsm with adv_rpa_timer := u32add env.os_time env.rpa_tmo }
      if env.is_rpa advsm.adva 1 then
        { advsm with adv_txadd := 1 }
      else if advsm.own_addr_type % 2 = 1 then
        { advsm with adv_txadd := 1 }
      else
        { advsm with adv_txadd := 0 }
    else advsm
  else advsm

/-- Embedding of `ble_ll_adv_first_chan` (ble_ll_adv.c:190-205).  It takes the
channel mask, the only state-machine field the C function reads. -/
def ble_ll_adv_first_chan (adv_chanmask : Nat) : Nat :=
  if adv_chanmask &&& 0x01 ≠ 0 then BLE_PHY_ADV_CHAN_START
  else if adv_chanmask &&& 0x02 ≠ 0 then BLE_PHY_ADV_CHAN_START + 1
  else BLE_PHY_ADV_CHAN_START + 2

/-- Embedding of `ble_ll_adv_sm_start` (ble_ll_adv.c:677-744).  The calls
`ble_ll_adv_set_sched` / `ble_ll_sched_adv_new` only fill in the embedded
schedule item and hand it to the scheduler; the schedule item is not part of
the advertising data model (the scheduler later reports the granted start time
through `ble_ll_adv_scheduled`). -/
def ble_ll_adv_sm_start (env : LLEnv) (advsm : BleLLAdvSm) : Nat × BleLLAdvSm :=
  if advsm.own_addr_type = BLE_HCI_ADV_OWN_ADDR_RANDOM ∧ ¬ env.random_addr_valid then
    (BLE_ERR_CMD_DISALLOWED, advsm)
  else
    let advsm :=
      if advsm.own_addr_type % 2 = 0 then
        { advsm with adva := env.dev_addr, adv_txadd := 0 }
      else
        { advsm with adva := env.random_addr, adv_txadd := 1 }
    let advsm :=
      if advsm.adv_directed ≠ 0 then
        { advsm with initiator_addr := advsm.peer_addr
                     adv_rxadd := if advsm.peer_addr_type % 2 = 1 then 1 else 0 }
      else advsm
    let advsm := if env.privacy then ble_ll_adv_chk_rpa_timeout env advsm else advsm
    let advsm := { advsm with enabled := 1 }
    let advsm :=
      if advsm.adv_type = BLE_HCI_ADV_TYPE_ADV_DIRECT_IND_HD then
        { advsm with adv_itvl_usecs := BLE_LL_ADV_PDU_ITVL_HD_MS_MAX }
      else
        { advsm with adv_itvl_usecs := advsm.adv_itvl_max * BLE_LL_ADV_ITVL }
    let advsm := { advsm with adv_chan := ble_ll_adv_first_chan advsm.adv_chanmask }
    (BLE_ERR_SUCCESS, advsm)

/-- Embedding of `ble_ll_adv_sm_stop` (ble_ll_adv.c:643-664).  The schedule
and event-queue removals and the LL-state reset act on objects outside the
advertising context; on the context itself the function only clears
`enabled`. -/
def ble_ll_adv_sm_stop (advsm : BleLLAdvSm) : BleLLAdvSm :=
  if advsm.enabled ≠ 0 then { advsm with enabled := 0 } else advsm

/-- Embedding of `ble_ll_adv_set_enable` (ble_ll_adv.c:793-817). -/
def ble_ll_adv_set_enable (env : LLEnv) (advsm : BleLLAdvSm)
    (cmd : Nat → Nat) : Nat × BleLLAdvSm :=
  let enable := cmd 0
  if enable = 1 then
    if advsm.enabled = 0 then ble_ll_adv_sm_start env advsm
    else (0, advsm)
  else if enable = 0 then
    (0, ble_ll_adv_sm_stop advsm)
  else
    (BLE_ERR_INV_HCI_CMD_PARMS, advsm)

/-- Embedding of `ble_ll_adv_scheduled` (ble_ll_adv.c:746-766): records the
event/PDU start time granted by the scheduler and fixes the high-duty-cycle
deadline 1.28 s (BLE_LL_ADV_STATE_HD_MAX milliseconds) after it.
`u2t` is `cputime_usecs_to_ticks` from the HAL (outside the source tree). -/
def ble_ll_adv_scheduled (u2t : Nat → Nat) (advsm : BleLLAdvSm)
    (sch_start : Nat) : BleLLAdvSm :=
  let start := u32add sch_start (u2t XCVR_TX_SCHED_DELAY_USECS)
  { advsm with
      adv_event_start_time := start
      adv_pdu_start_time := start
      adv_dir_hd_end_time := u32add start (u2t (BLE_LL_ADV_STATE_HD_MAX * 1000)) }

/-! ## `ble_ll_adv_event_done` and the advertising-event channel sequence -/

/-- Final advertising channel of an event, as computed inline in
`ble_ll_adv_event_done` (ble_ll_adv.c:1241-1247). -/
def ble_ll_adv_final_chan (adv_chanmask : Nat) : Nat :=
  if adv_chanmask &&& 0x04 ≠ 0 then BLE_PHY_ADV_CHAN_START + 2
  else if adv_chanmask &&& 0x02 ≠ 0 then BLE_PHY_ADV_CHAN_START + 1
  else BLE_PHY_ADV_CHAN_START

/-- Channel advance of `ble_ll_adv_event_done` (ble_ll_adv.c:1291-1295):
increment the channel, and skip it once more if its bit is not in the mask. -/
def ble_ll_adv_next_chan (adv_chanmask adv_chan : Nat) : Nat :=
  let c := adv_chan + 1
  if (1 <<< (c - BLE_PHY_ADV_CHAN_START)) &&& adv_chanmask = 0 then c + 1 else c

/-- Channels visited by one advertising event: start at
`ble_ll_adv_first_chan` and step with `ble_ll_adv_next_chan` until the final
channel has been used (at most three channels, hence fuel 2). -/
def chanWalk (adv_chanmask : Nat) : Nat → Nat → List Nat
  | 0, c => [c]
  | fuel + 1, c =>
    if c = ble_ll_adv_final_chan adv_chanmask then [c]
    else c :: chanWalk adv_chanmask fuel (ble_ll_adv_next_chan adv_chanmask c)

/-- The list of channels one advertising event transmits on, in order. -/
def adv_event_chan_list (adv_chanmask : Nat) : List Nat :=
  chanWalk adv_chanmask 2 (ble_ll_adv_first_chan adv_chanmask)

/-- Environment of one `ble_ll_adv_event_done` invocation: the cputime clock,
the successive `rand()` draws, `cputime_usecs_to_ticks`, the result of
`ble_ll_sched_adv_reschedule` and the Link-Layer environment used by the RPA
check. -/
structure EvEnv where
  now : Nat
  rand : Nat → Nat
  u2t : Nat → Nat
  reschedule_ok : Bool
  ll : LLEnv

/-- The catch-up loop of `ble_ll_adv_event_done` (ble_ll_adv.c:1272-1284):
while the computed start time is in the past, keep adding one advertising
interval (plus a fresh jitter draw for non-high-duty types).  `ridx` indexes
the `rand()` stream; the loop is fuel-bounded because the C loop's termination
depends on the tick conversion. -/
def adv_requeue_loop (env : EvEnv) (adv_type adv_itvl_usecs : Nat) :
    Nat → Nat → Nat → Int → Nat
  | 0, _, event_start, _ => event_start
  | fuel + 1, ridx, event_start, delta_t =>
    if delta_t < 0 then
      let itvl := adv_itvl_usecs +
        (if adv_type ≠ BLE_HCI_ADV_TYPE_ADV_DIRECT_IND_HD then
          env.rand ridx % (BLE_LL_ADV_DELAY_MS_MAX * 1000) else 0)
      let t := env.u2t itvl
      adv_requeue_loop env adv_type adv_itvl_usecs fuel (ridx + 1)
        (u32add event_start t) (delta_t + toInt32 t)
    else event_start

/-- Embedding of `ble_ll_adv_event_done` (ble_ll_adv.c:1218-1334).

Returns the updated context, the list of HCI completion statuses sent to the
host (`ble_ll_conn_comp_event_send`), and whether the next advertising event
was successfully (re)scheduled (`false` both on the high-duty timeout, which
schedules nothing, and when `ble_ll_sched_adv_reschedule` fails, in which case
the C code re-posts the tx-done event instead).  The schedule-item bookkeeping
(`ble_ll_sched_rmv_elem`, `os_eventq_remove`, `ble_ll_adv_set_sched`,
`ble_ll_scan_chk_resume`) acts outside the advertising context.  The C entry
`assert(advsm->enabled)` makes `enabled ≠ 0` a precondition of every call.

`adv_event_done_chan_upd` is the first half of the function
(ble_ll_adv.c:1241-1303): if the previous PDU went out on the final channel
the event is over and the start time of the next event is computed (with the
pseudo-random advertising delay and the catch-up loop), otherwise the event
continues on the next enabled channel. -/
def adv_event_done_chan_upd (env : EvEnv) (fuel : Nat)
    (advsm : BleLLAdvSm) : BleLLAdvSm :=
  if advsm.adv_chan = ble_ll_adv_final_chan advsm.adv_chanmask then
    -- the event is over: back to the first channel, next event start time
    let advsm : BleLLAdvSm :=
      { advsm with adv_chan := ble_ll_adv_first_chan advsm.adv_chanmask }
    let itvl := advsm.adv_itvl_usecs +
      (if advsm.adv_type ≠ BLE_HCI_ADV_TYPE_ADV_DIRECT_IND_HD then
        env.rand 0 % (BLE_LL_ADV_DELAY_MS_MAX * 1000) else 0)
    let est := u32add advsm.adv_event_start_time (env.u2t itvl)
    let advsm : BleLLAdvSm :=
      { advsm with adv_event_start_time := est, adv_pdu_start_time := est }
    let start_time :=
      u32sub advsm.adv_pdu_start_time (env.u2t XCVR_TX_SCHED_DELAY_USECS)
    let delta_t := toInt32 (u32sub start_time env.now)
    if delta_t < 0 then
      let est2 := adv_requeue_loop env advsm.adv_type advsm.adv_itvl_usecs
        fuel 1 est delta_t
      { advsm with adv_event_start_time := est2, adv_pdu_start_time := est2 }
    else advsm
  else
    -- move to the next advertising channel of the same event
    { advsm with
        adv_chan := ble_ll_adv_next_chan advsm.adv_chanmask advsm.adv_chan
        adv_pdu_start_time :=
          u32add env.now (env.u2t XCVR_TX_SCHED_DELAY_USECS) }

def ble_ll_adv_event_done (env : EvEnv) (fuel : Nat)
    (advsm : BleLLAdvSm) : BleLLAdvSm × List Nat × Bool :=
  let advsm : BleLLAdvSm := adv_event_done_chan_upd env fuel advsm
  if advsm.adv_type = BLE_HCI_ADV_TYPE_ADV_DIRECT_IND_HD ∧
     advsm.adv_pdu_start_time ≥ advsm.adv_dir_hd_end_time then
    ({ advsm with enabled := 0 }, [BLE_ERR_DIR_ADV_TMO], false)
  else
    let advsm : BleLLAdvSm :=
      if env.ll.privacy then ble_ll_adv_chk_rpa_timeout env.ll advsm else advsm
    (advsm, [], env.reschedule_ok)

/-- A chain of consecutive `ble_ll_adv_event_done` invocations, each taken
from a state the C `assert(advsm->enabled)` admits, counting how many
direct-advertising-timeout completion statuses were sent along the way. -/
inductive AdvEvChain : BleLLAdvSm → BleLLAdvSm → Nat → Prop
  | nil (s : BleLLAdvSm) : AdvEvChain s s 0
  | step (env : EvEnv) (fuel : Nat) (s s' t : BleLLAdvSm) (evs : List Nat)
      (r : Bool) (n : Nat) :
      s.enabled ≠ 0 →
      ble_ll_adv_event_done env fuel s = (s', evs, r) →
      AdvEvChain s' t n →
      AdvEvChain s t (evs.count BLE_ERR_DIR_ADV_TMO + n)

/-! ## `ble_phy_tx` (nrf51 PHY driver) -/

/-- The PHY driver state (`struct ble_phy_obj`, ble_phy.c:124-142) restricted
to the fields `ble_phy_tx` touches, together with the static transmit buffer
`g_ble_phy_tx_buf` (as a byte list). -/
structure BlePhyObj where
  phy_state : Nat
  phy_transition : Nat
  phy_tx_pyld_len : Nat
  tx_buf : List Nat
  deriving Repr, DecidableEq

/-- A PDU handed to `ble_phy_tx`: the mbuf's BLE header fields
(`txinfo.hdr_byte`, `txinfo.pyld_len`, `txinfo.offset`) and the mbuf chain
contents. -/
structure PhyTxPdu where
  hdr_byte : Nat
  pyld_len : Nat
  offset : Nat
  data : List Nat
  deriving Repr, DecidableEq

/-- Embedding of `ble_phy_disable` (ble_phy.c): on the driver state it forces
`phy_state` to idle (the rest of the function clears radio registers). -/
def ble_phy_disable (phy : BlePhyObj) : BlePhyObj :=
  { phy with phy_state := BLE_PHY_STATE_IDLE }

/-- Embedding of `ble_phy_tx` (ble_phy.c:924-1037), unencrypted path
(`phy_encrypted == 0`): S0 and LENGTH are written to the transmit buffer, the
payload length and end transition are latched, and then the radio state (read
after `nrf_wait_disabled()` has let any transient `TxDisable`/`RxDisable`
state settle) decides between arming the transmit and aborting late.
`radio_state` is the `NRF_RADIO->STATE` value observed at that read. -/
def ble_phy_tx (radio_state : Nat) (phy : BlePhyObj) (txpdu : PhyTxPdu)
    (end_trans : Nat) : Nat × BlePhyObj :=
  let hdr := [txpdu.hdr_byte, txpdu.pyld_len]
  let phy : BlePhyObj :=
    { phy with
        tx_buf := memcpyHead phy.tx_buf hdr
        phy_tx_pyld_len := txpdu.pyld_len
        phy_transition := end_trans }
  if radio_state ≠ RADIO_STATE_STATE_Tx then
    (BLE_ERR_SUCCESS,
     { phy with
         tx_buf := memcpyHead phy.tx_buf
           (hdr ++ (txpdu.data.drop txpdu.offset).take txpdu.pyld_len)
         phy_state := BLE_PHY_STATE_TX })
  else
    (BLE_PHY_ERR_RADIO_STATE, ble_phy_disable phy)

/-! ## Receive path: scan requests and connect requests -/

/-- `rxinfo.flags` bits of the received-PDU header that the advertising code
reads and writes (`BLE_MBUF_HDR_F_RESOLVED`, `BLE_MBUF_HDR_F_DEVMATCH`,
`BLE_MBUF_HDR_F_SCAN_RSP_TXD`). -/
structure BleMbufFlags where
  resolved : Bool
  devmatch : Bool
  scan_rsp_txd : Bool
  deriving Repr, DecidableEq

/-- Fresh header flags of a received PDU. -/
def BleMbufFlags.clear : BleMbufFlags :=
  { resolved := false, devmatch := false, scan_rsp_txd := false }

/-- Environment of the receive path: the privacy configuration and resolving
list (`ble_ll_resolv_*`, `ble_hw_resolv_list_match`, `g_ble_ll_resolv_list`),
the whitelist, the buffer pool and PHY results for the scan response, and the
connection layer (`ble_ll_conn_slave_start`) together with the receive
timestamp and the `BLE_TX_DUR_USECS_M` duration macro (header outside the
source tree). -/
structure RxEnv where
  privacy : Bool
  resolv_enabled : Bool
  is_rpa : List Nat → Nat → Bool
  hw_resolv_match : Int
  rl_identity_addr : Int → List Nat
  rl_addr_type : Int → Nat
  whitelist_match : List Nat → Nat → Bool → Bool
  scan_rsp_alloc_ok : Bool
  phy_tx_rc : Nat
  beg_cputime : Nat
  tx_dur_usecs : Nat → Nat
  slave_start : (Nat → Nat) → Nat → Nat → Bool

/-- Embedding of `ble_ll_adv_rx_isr_start` (ble_ll_adv.c:1172-1209), the
frame filter applied when a PDU starts arriving: scan requests are only
received for scannable/indirect advertising, connect requests only for
connectable advertising; anything else aborts the frame (return `-1`, which
also posts the tx-done event). -/
def ble_ll_adv_rx_isr_start (advsm : BleLLAdvSm) (pdu_type : Nat) : Int :=
  if pdu_type = BLE_ADV_PDU_TYPE_SCAN_REQ then
    if advsm.adv_type = BLE_HCI_ADV_TYPE_ADV_SCAN_IND ∨
       advsm.adv_type = BLE_HCI_ADV_TYPE_ADV_IND then 1 else -1
  else if pdu_type = BLE_ADV_PDU_TYPE_CONNECT_REQ then
    if advsm.adv_type = BLE_HCI_ADV_TYPE_ADV_DIRECT_IND_HD ∨
       advsm.adv_type = BLE_HCI_ADV_TYPE_ADV_DIRECT_IND_LD ∨
       advsm.adv_type = BLE_HCI_ADV_TYPE_ADV_IND then 0 else -1
  else -1

/-- Embedding of `ble_ll_adv_rx_req` (ble_ll_adv.c:887-974).  `rxbuf` is the
received PDU as a byte function (header byte 0, length byte 1, peer address at
offset 2, AdvA at offset 8).  Returns the C return code, the updated context
(`adv_rpa_index`) and the updated header flags. -/
def ble_ll_adv_rx_req (env : RxEnv) (advsm : BleLLAdvSm) (pdu_type : Nat)
    (rxbuf : Nat → Nat) (flags : BleMbufFlags) :
    Int × BleLLAdvSm × BleMbufFlags :=
  let adva := bufAddr rxbuf (BLE_LL_PDU_HDR_LEN + BLE_DEV_ADDR_LEN)
  if advsm.adva ≠ adva then (-1, advsm, flags)
  else
    let chk_wl :=
      if pdu_type = BLE_ADV_PDU_TYPE_SCAN_REQ then advsm.adv_filter_policy &&& 1
      else advsm.adv_filter_policy &&& 2
    let txadd :=
      if rxbuf 0 &&& BLE_ADV_PDU_HDR_TXADD_MASK ≠ 0 then BLE_ADDR_TYPE_RANDOM
      else BLE_ADDR_TYPE_PUBLIC
    let peer := bufAddr rxbuf BLE_LL_PDU_HDR_LEN
    -- continuation after the privacy block (whitelist check, device match,
    -- scan-response transmission)
    let cont := fun (advsm : BleLLAdvSm) (flags : BleMbufFlags) (peer : List Nat)
        (peer_addr_type : Nat) (resolved : Bool) =>
      if chk_wl ≠ 0 ∧ ¬ env.whitelist_match peer peer_addr_type resolved then
        ((-1 : Int), advsm, flags)
      else
        let flags : BleMbufFlags := { flags with devmatch := true }
        if pdu_type = BLE_ADV_PDU_TYPE_SCAN_REQ then
          if env.scan_rsp_alloc_ok then
            if env.phy_tx_rc = 0 then
              ((env.phy_tx_rc : Int), advsm, { flags with scan_rsp_txd := true })
            else ((env.phy_tx_rc : Int), advsm, flags)
          else (-1, advsm, flags)
        else (-1, advsm, flags)
    if env.privacy ∧ env.is_rpa peer txadd ∧ env.resolv_enabled then
      let advsm : BleLLAdvSm := { advsm with adv_rpa_index := env.hw_resolv_match }
      if env.hw_resolv_match ≥ 0 then
        let flags : BleMbufFlags := { flags with resolved := true }
        if chk_wl ≠ 0 then
          cont advsm flags (env.rl_identity_addr advsm.adv_rpa_index)
            (env.rl_addr_type advsm.adv_rpa_index) true
        else
          cont advsm flags peer txadd false
      else
        if chk_wl ≠ 0 then (-1, advsm, flags)
        else cont advsm flags peer txadd false
    else
      cont advsm flags peer txadd false

/-- Length mask of the second PDU header byte (`BLE_ADV_PDU_HDR_LEN_MASK`). -/
def BLE_ADV_PDU_HDR_LEN_MASK : Nat := 0x3F

/-- Embedding of `ble_ll_adv_conn_req_rxd` (ble_ll_adv.c:986-1067): decides
whether the received connect request starts a slave connection, stopping the
advertiser exactly when it does.  `flags` are the header flags produced by
`ble_ll_adv_rx_req` at ISR time. -/
def ble_ll_adv_conn_req_rxd (env : RxEnv) (advsm : BleLLAdvSm)
    (rxbuf : Nat → Nat) (flags : BleMbufFlags) : Bool × BleLLAdvSm :=
  let resolved := env.privacy ∧ flags.resolved
  let inita := bufAddr rxbuf BLE_LL_PDU_HDR_LEN
  let addr_type0 :=
    if rxbuf 0 &&& BLE_ADV_PDU_HDR_TXADD_MASK ≠ 0 then BLE_ADDR_TYPE_RANDOM
    else BLE_ADDR_TYPE_PUBLIC
  let valid :=
    if flags.devmatch then
      if advsm.adv_type = BLE_HCI_ADV_TYPE_ADV_DIRECT_IND_HD ∨
         advsm.adv_type = BLE_HCI_ADV_TYPE_ADV_DIRECT_IND_LD then
        let ident_addr :=
          if resolved then env.rl_identity_addr advsm.adv_rpa_index else inita
        let addr_type :=
          if resolved then env.rl_addr_type advsm.adv_rpa_index else addr_type0
        ¬ (addr_type ≠ advsm.peer_addr_type ∨ advsm.peer_addr ≠ ident_addr)
      else true
    else false
  if valid then
    -- under privacy, retain the received RPA and rewrite InitA in the buffer
    -- with the identity address before handing it to the connection layer
    let advsm : BleLLAdvSm :=
      if resolved then { advsm with adv_rpa := inita } else advsm
    let rxbuf' : Nat → Nat :=
      if resolved then
        fun i =>
          if BLE_LL_PDU_HDR_LEN ≤ i ∧ i < BLE_LL_PDU_HDR_LEN + BLE_DEV_ADDR_LEN
          then (env.rl_identity_addr advsm.adv_rpa_index).getD (i - BLE_LL_PDU_HDR_LEN) 0
          else rxbuf i
      else rxbuf
    let addr_type :=
      if resolved then env.rl_addr_type advsm.adv_rpa_index + 2 else addr_type0
    let pyld_len := rxbuf 1 &&& BLE_ADV_PDU_HDR_LEN_MASK
    let endtime := u32add env.beg_cputime (env.tx_dur_usecs pyld_len)
    if env.slave_start rxbuf' endtime addr_type then
      (true, ble_ll_adv_sm_stop advsm)
    else (false, advsm)
  else (false, advsm)

/-- The complete controller-side handling of one received scan request while
advertising: the ISR-start frame filter (`ble_ll_adv_rx_isr_start`) followed,
for frames that were not aborted, by `ble_ll_adv_rx_req` (reached through
`ble_ll_adv_rx_isr_end` for CRC-correct scan requests).  Returns the final
header flags and context; `scan_rsp_txd` says whether a scan response was
transmitted. -/
def scan_req_pipeline (env : RxEnv) (advsm : BleLLAdvSm) (rxbuf : Nat → Nat) :
    BleMbufFlags × BleLLAdvSm :=
  if ble_ll_adv_rx_isr_start advsm BLE_ADV_PDU_TYPE_SCAN_REQ < 0 then
    (BleMbufFlags.clear, advsm)
  else
    let r := ble_ll_adv_rx_req env advsm BLE_ADV_PDU_TYPE_SCAN_REQ rxbuf
      BleMbufFlags.clear
    (r.2.2, r.2.1)

/-- The complete controller-side handling of one received connect request
while advertising: the ISR-start frame filter, then `ble_ll_adv_rx_req` at
ISR end (which records device match / resolution in the header flags), then
`ble_ll_adv_conn_req_rxd` in the Link-Layer task (reached through
`ble_ll_adv_rx_pkt_in` for CRC-correct frames).  Returns whether a connection
started and the final context. -/
def conn_req_pipeline (env : RxEnv) (advsm : BleLLAdvSm) (rxbuf : Nat → Nat) :
    Bool × BleLLAdvSm :=
  if ble_ll_adv_rx_isr_start advsm BLE_ADV_PDU_TYPE_CONNECT_REQ < 0 then
    (false, advsm)
  else
    let r := ble_ll_adv_rx_req env advsm BLE_ADV_PDU_TYPE_CONNECT_REQ rxbuf
      BleMbufFlags.clear
    ble_ll_adv_conn_req_rxd env r.2.1 rxbuf r.2.2

/-! ## Shared helper lemmas and witness fixtures -/

/-- Splicing a second `memcpy` that rewrites the first one's bytes and more:
copying `s` and then `s ++ p` into the same buffer is one copy of `s ++ p`. -/
theorem memcpyHead_append (b s p : List Nat) :
    memcpyHead (memcpyHead b s) (s ++ p) = memcpyHead b (s ++ p) := by
  simp only [memcpyHead, List.length_append, List.append_cancel_left_eq]
  rw [List.drop_append_eq_append_drop]
  simp [List.drop_drop, Nat.add_comm, Nat.add_sub_cancel_left]

/-- Environment fixture used by the concrete witnesses. -/
def wLLEnv : LLEnv :=
  { privacy := false, dev_addr := List.replicate 6 1
    random_addr := List.replicate 6 2, random_addr_valid := true
    os_time := 0, rpa_tmo := 0, gen_rpa_local := List.replicate 6 0
    gen_rpa_init := List.replicate 6 0, is_rpa := fun _ _ => false }

/-- An advertising context that is currently enabled. -/
def wEnabledSm : BleLLAdvSm := { ble_ll_adv_init with enabled := 1 }

/-! ## Claim C10: set-advertising-data / set-scan-response-data -/

/-- C10: `ble_ll_adv_set_adv_data` and `ble_ll_adv_set_scan_rsp_data` validate
only the length byte: a length of at most 31 succeeds and copies exactly that
many bytes into the context (regardless of whether advertising is enabled,
which the functions never read and never change); a larger length returns
InvalidParams and leaves the stored length and payload untouched. -/
theorem adv_data_commands_validate_only_length (advsm : BleLLAdvSm)
    (cmd : Nat → Nat) (len : Nat) :
    (((ble_ll_adv_set_adv_data cmd len advsm).1 = BLE_ERR_SUCCESS ↔
        cmd 0 ≤ BLE_ADV_DATA_MAX_LEN) ∧
     (cmd 0 ≤ BLE_ADV_DATA_MAX_LEN →
        (ble_ll_adv_set_adv_data cmd len advsm).2 =
          { advsm with adv_len := cmd 0
                       adv_data := memcpyHead advsm.adv_data
                         ((List.range (cmd 0)).map fun i => cmd (1 + i)) }) ∧
     (cmd 0 > BLE_ADV_DATA_MAX_LEN →
        ble_ll_adv_set_adv_data cmd len advsm = (BLE_ERR_INV_HCI_CMD_PARMS, advsm)) ∧
     (ble_ll_adv_set_adv_data cmd len advsm).2.enabled = advsm.enabled) ∧
    (((ble_ll_adv_set_scan_rsp_data cmd len advsm).1 = BLE_ERR_SUCCESS ↔
        cmd 0 ≤ BLE_SCAN_RSP_DATA_MAX_LEN) ∧
     (cmd 0 ≤ BLE_SCAN_RSP_DATA_MAX_LEN →
        (ble_ll_adv_set_scan_rsp_data cmd len advsm).2 =
          { advsm with scan_rsp_len := cmd 0
                       scan_rsp_data := memcpyHead advsm.scan_rsp_data
                         ((List.range (cmd 0)).map fun i => cmd (1 + i)) }) ∧
     (cmd 0 > BLE_SCAN_RSP_DATA_MAX_LEN →
        ble_ll_adv_set_scan_rsp_data cmd len advsm =
          (BLE_ERR_INV_HCI_CMD_PARMS, advsm)) ∧
     (ble_ll_adv_set_scan_rsp_data cmd len advsm).2.enabled = advsm.enabled) := by
  by_cases h : cmd 0 ≤ 31
  · have h' : ¬ cmd 0 > 31 := by omega
    constructor <;>
      simp [ble_ll_adv_set_adv_data, ble_ll_adv_set_scan_rsp_data,
        BLE_ADV_DATA_MAX_LEN, BLE_SCAN_RSP_DATA_MAX_LEN, BLE_ERR_SUCCESS,
        BLE_ERR_INV_HCI_CMD_PARMS, h, h']
  · have h' : cmd 0 > 31 := by omega
    constructor <;>
      simp [ble_ll_adv_set_adv_data, ble_ll_adv_set_scan_rsp_data,
        BLE_ADV_DATA_MAX_LEN, BLE_SCAN_RSP_DATA_MAX_LEN, BLE_ERR_SUCCESS,
        BLE_ERR_INV_HCI_CMD_PARMS, h, h']

/-- Command buffer fixture for the C10 witness: length byte 2, payload 7, 9. -/
def wCmdData : Nat → Nat := fun i => [2, 7, 9].getD i 0

/-- C10 witness: a 2-byte payload is accepted and copied while advertising is
enabled. -/
theorem adv_data_commands_validate_only_length_witness :
    (ble_ll_adv_set_adv_data wCmdData 3 wEnabledSm).2 =
      { wEnabledSm with adv_len := 2
                        adv_data := memcpyHead wEnabledSm.adv_data
                          ((List.range 2).map fun i => wCmdData (1 + i)) } :=
  (adv_data_commands_validate_only_length wEnabledSm wCmdData 3).1.2.1 (by decide)

/-! ## Claim C3: enabling twice -/

/-- C3 (amended): issuing set-advertising-enable with enable=1 while the
advertiser is already enabled is a no-op that returns Success — the state
machine is not restarted and no error (in particular not CommandDisallowed)
is reported. -/
theorem set_enable_twice_is_noop (env : LLEnv) (advsm : BleLLAdvSm)
    (cmd : Nat → Nat) (hen : advsm.enabled ≠ 0) (hcmd : cmd 0 = 1) :
    ble_ll_adv_set_enable env advsm cmd = (BLE_ERR_SUCCESS, advsm) := by
  simp [ble_ll_adv_set_enable, hcmd, hen, BLE_ERR_SUCCESS]

/-- Enable command fixture (`cmd[0] = 1`). -/
def wCmdEnable : Nat → Nat := fun _ => 1

/-- C3 counterexample: enabling an already-enabled advertiser returns Success,
not the CommandDisallowed status the claim requires. -/
theorem set_enable_twice_counterexample :
    (ble_ll_adv_set_enable wLLEnv wEnabledSm wCmdEnable).1 = BLE_ERR_SUCCESS ∧
    BLE_ERR_SUCCESS ≠ BLE_ERR_CMD_DISALLOWED := by
  refine ⟨?_, by decide⟩
  exact congrArg Prod.fst
    (set_enable_twice_is_noop wLLEnv wEnabledSm wCmdEnable (by decide) rfl)

/-- C3 witness for the amended theorem. -/
theorem set_enable_twice_is_noop_witness :
    ble_ll_adv_set_enable wLLEnv wEnabledSm wCmdEnable = (BLE_ERR_SUCCESS, wEnabledSm) :=
  set_enable_twice_is_noop wLLEnv wEnabledSm wCmdEnable (by decide) rfl

/-! ## Claim C4: advertising-event channel sequence -/

/-- C4: for every non-empty 3-bit channel mask, one advertising event visits
exactly the channels whose bits are set, in ascending order starting from
`ble_ll_adv_first_chan` (the lowest enabled channel), each exactly once, and
the `ble_ll_adv_event_done` channel advance steps only through enabled
channels until the final (highest enabled) channel has been used. -/
theorem adv_event_visits_enabled_chans_ascending :
    ∀ mask : Nat, mask < 8 → 0 < mask →
      adv_event_chan_list mask =
        ((List.range 3).filter fun i => mask &&& (1 <<< i) ≠ 0).map
          fun i => BLE_PHY_ADV_CHAN_START + i := by
  decide

/-- C4 witness: channel mask 0b101 visits channels 37 and 39 in that order. -/
theorem adv_event_visits_enabled_chans_ascending_witness :
    adv_event_chan_list 5 = [37, 39] :=
  (adv_event_visits_enabled_chans_ascending 5 (by decide) (by decide)).trans
    (by decide)

/-! ## Claim C9: `ble_phy_tx` while the radio is mid-transmission -/

/-- C9: if the radio is still actively transmitting after the transient
disable states have been waited out, `ble_phy_tx` aborts (forcing the PHY to
idle) and reports the late-transmit radio-state error; otherwise the PDU
header and payload are copied into the transmit buffer, the PHY state becomes
TX, and success is returned. -/
theorem phy_tx_aborts_when_mid_transmission (radio_state : Nat)
    (phy : BlePhyObj) (txpdu : PhyTxPdu) (end_trans : Nat) :
    (radio_state = RADIO_STATE_STATE_Tx →
       (ble_phy_tx radio_state phy txpdu end_trans).1 = BLE_PHY_ERR_RADIO_STATE ∧
       (ble_phy_tx radio_state phy txpdu end_trans).2.phy_state = BLE_PHY_STATE_IDLE) ∧
    (radio_state ≠ RADIO_STATE_STATE_Tx →
       (ble_phy_tx radio_state phy txpdu end_trans).1 = BLE_ERR_SUCCESS ∧
       (ble_phy_tx radio_state phy txpdu end_trans).2.phy_state = BLE_PHY_STATE_TX ∧
       (ble_phy_tx radio_state phy txpdu end_trans).2.tx_buf =
         memcpyHead phy.tx_buf ([txpdu.hdr_byte, txpdu.pyld_len] ++
           (txpdu.data.drop txpdu.offset).take txpdu.pyld_len)) := by
  constructor
  · intro h
    simp [ble_phy_tx, ble_phy_disable, h]
  · intro h
    refine ⟨?_, ?_, ?_⟩ <;> simp [ble_phy_tx, h]
    exact memcpyHead_append phy.tx_buf [txpdu.hdr_byte, txpdu.pyld_len]
      ((txpdu.data.drop txpdu.offset).take txpdu.pyld_len)

/-- PHY driver state fixture for the C9 witness. -/
def wPhy : BlePhyObj :=
  { phy_state := 0, phy_transition := 0, phy_tx_pyld_len := 0
    tx_buf := List.replicate 40 0 }

/-- PDU fixture for the C9 witness. -/
def wTxPdu : PhyTxPdu := { hdr_byte := 0x40, pyld_len := 2, offset := 0, data := [0xAA, 0xBB] }

/-- C9 witness: arming while the radio reports Tx fails late; arming from a
disabled radio succeeds and moves the PHY to TX. -/
theorem phy_tx_aborts_when_mid_transmission_witness :
    (ble_phy_tx RADIO_STATE_STATE_Tx wPhy wTxPdu 0).1 = BLE_PHY_ERR_RADIO_STATE ∧
    (ble_phy_tx 0 wPhy wTxPdu 0).2.phy_state = BLE_PHY_STATE_TX :=
  ⟨((phy_tx_aborts_when_mid_transmission RADIO_STATE_STATE_Tx wPhy wTxPdu 0).1 rfl).1,
   ((phy_tx_aborts_when_mid_transmission 0 wPhy wTxPdu 0).2 (by decide)).2.1⟩

/-! ## Claim C1: interval validation in `ble_ll_adv_set_adv_params` -/

set_option maxHeartbeats 2000000 in
/-- C1 (amended): with advertising disabled and the address-type, channel-mask
and filter-policy checks passing, `ble_ll_adv_set_adv_params` succeeds iff
either the type is high-duty directed (whose host-supplied intervals are
ignored — they are forced to 0, so the command succeeds regardless of the
interval fields), or `interval_min ≤ interval_max`, `interval_min` is at least
the type-specific minimum (`BLE_LL_ADV_ITVL_NONCONN_MIN` for non-connectable
and scannable types, `BLE_LL_ADV_ITVL_MIN` otherwise) and both intervals are
at most `BLE_HCI_ADV_ITVL_MAX`; every failure is InvalidParams. -/
theorem set_adv_params_interval_validation (privacy : Bool) (osTime : Nat)
    (advsm : BleLLAdvSm) (cmd : Nat → Nat)
    (hdis : advsm.enabled = 0)
    (htype : cmd 4 ≤ 4)
    (hown : cmd 5 ≤ BLE_HCI_ADV_OWN_ADDR_MAX)
    (hpriv : privacy = true ∨ cmd 5 ≤ BLE_HCI_ADV_OWN_ADDR_RANDOM)
    (hpeer : cmd 6 ≤ BLE_HCI_ADV_PEER_ADDR_MAX)
    (hchan : cmd 13 &&& 0xF8 = 0 ∧ cmd 13 ≠ 0)
    (hfilt : cmd 4 = BLE_HCI_ADV_TYPE_ADV_DIRECT_IND_HD ∨
             cmd 4 = BLE_HCI_ADV_TYPE_ADV_DIRECT_IND_LD ∨
             cmd 14 ≤ BLE_HCI_ADV_FILT_MAX) :
    ((ble_ll_adv_set_adv_params privacy osTime advsm cmd).1 = BLE_ERR_SUCCESS ↔
      (cmd 4 = BLE_HCI_ADV_TYPE_ADV_DIRECT_IND_HD ∨
       (le16toh cmd 0 ≤ le16toh cmd 2 ∧
        (if cmd 4 = BLE_HCI_ADV_TYPE_ADV_NONCONN_IND ∨
            cmd 4 = BLE_HCI_ADV_TYPE_ADV_SCAN_IND then BLE_LL_ADV_ITVL_NONCONN_MIN
         else BLE_LL_ADV_ITVL_MIN) ≤ le16toh cmd 0 ∧
        le16toh cmd 0 ≤ BLE_HCI_ADV_ITVL_MAX ∧
        le16toh cmd 2 ≤ BLE_HCI_ADV_ITVL_MAX))) ∧
    ((ble_ll_adv_set_adv_params privacy osTime advsm cmd).1 ≠ BLE_ERR_SUCCESS →
      (ble_ll_adv_set_adv_params privacy osTime advsm cmd).1 =
        BLE_ERR_INV_HCI_CMD_PARMS) := by
  obtain ⟨hchan1, hchan2⟩ := hchan
  have h45 : cmd 4 = 0 ∨ cmd 4 = 1 ∨ cmd 4 = 2 ∨ cmd 4 = 3 ∨ cmd 4 = 4 := by omega
  rcases h45 with h4 | h4 | h4 | h4 | h4 <;> cases privacy <;>
    simp_all [ble_ll_adv_set_adv_params, adv_params_presets, adv_params_rpa_reset,
      apply_ite (Prod.fst : Nat × BleLLAdvSm → Nat),
      BLE_HCI_ADV_TYPE_ADV_IND,
      BLE_HCI_ADV_TYPE_ADV_DIRECT_IND_HD, BLE_HCI_ADV_TYPE_ADV_SCAN_IND,
      BLE_HCI_ADV_TYPE_ADV_NONCONN_IND, BLE_HCI_ADV_TYPE_ADV_DIRECT_IND_LD,
      BLE_HCI_ADV_OWN_ADDR_MAX, BLE_HCI_ADV_OWN_ADDR_RANDOM,
      BLE_HCI_ADV_PEER_ADDR_MAX, BLE_HCI_ADV_FILT_MAX, BLE_HCI_ADV_FILT_NONE,
      BLE_HCI_ADV_ITVL_MAX, BLE_LL_ADV_ITVL_MIN, BLE_LL_ADV_ITVL_NONCONN_MIN,
      BLE_ERR_SUCCESS, BLE_ERR_INV_HCI_CMD_PARMS, BLE_ERR_CMD_DISALLOWED,
      BLE_ERR_UNSUPPORTED] <;>
    split_ifs <;> simp_all <;> omega

/-- Valid ADV_IND parameter command: intervals 0x800/0x800, public addresses,
all three channels, no filtering. -/
def wCmdGood : Nat → Nat :=
  fun i => [0, 8, 0, 8, 0, 0, 0, 0, 0, 0, 0, 0, 0, 7, 0].getD i 0

/-- High-duty directed parameter command with interval_min = 0x5000 and
interval_max = 0 (min > max and min above the HCI maximum). -/
def wCmdHD : Nat → Nat :=
  fun i => [0, 0x50, 0, 0, 1, 0, 0, 0, 0, 0, 0, 0, 0, 7, 0].getD i 0

/-- C1 counterexample: for the high-duty directed type the host-supplied
intervals are ignored, so a command with `interval_min > interval_max` (and
`interval_min > BLE_HCI_ADV_ITVL_MAX`) still returns Success, contradicting
the claimed iff. -/
theorem set_adv_params_interval_counterexample :
    (ble_ll_adv_set_adv_params false 0 ble_ll_adv_init wCmdHD).1 = BLE_ERR_SUCCESS ∧
    ¬ (le16toh wCmdHD 0 ≤ le16toh wCmdHD 2) ∧
    le16toh wCmdHD 0 > BLE_HCI_ADV_ITVL_MAX := by
  refine ⟨by decide, by decide, by decide⟩

/-- C1 witness: a valid ADV_IND command is accepted. -/
theorem set_adv_params_interval_validation_witness :
    (ble_ll_adv_set_adv_params false 0 ble_ll_adv_init wCmdGood).1 = BLE_ERR_SUCCESS :=
  (set_adv_params_interval_validation false 0 ble_ll_adv_init wCmdGood
      (by decide) (by decide) (by decide) (Or.inr (by decide)) (by decide)
      ⟨by decide, by decide⟩ (Or.inr (Or.inr (by decide)))).1.mpr
    (Or.inr ⟨by decide, by decide, by decide, by decide⟩)

/-! ## Claim C2: failed `ble_ll_adv_set_adv_params` and the context -/

/-- The pre-validation switch writes touch only `adv_directed` and
`peer_addr`: the result equals the old context with just those two fields
(and trivially `adv_rpa_timer`) replaced. -/
theorem adv_params_presets_shape (advsm : BleLLAdvSm) (cmd : Nat → Nat) :
    adv_params_presets advsm cmd =
      { advsm with
          adv_directed := (adv_params_presets advsm cmd).adv_directed
          peer_addr := (adv_params_presets advsm cmd).peer_addr
          adv_rpa_timer := (adv_params_presets advsm cmd).adv_rpa_timer } := by
  by_cases hd : cmd 4 = BLE_HCI_ADV_TYPE_ADV_DIRECT_IND_HD ∨
      cmd 4 = BLE_HCI_ADV_TYPE_ADV_DIRECT_IND_LD <;>
    simp [adv_params_presets, hd]

/-- The privacy RPA reset on top of the switch writes still touches only
`adv_directed`, `peer_addr` and `adv_rpa_timer`. -/
theorem adv_params_rpa_reset_shape (osTime : Nat) (advsm : BleLLAdvSm)
    (cmd : Nat → Nat) :
    adv_params_rpa_reset osTime (adv_params_presets advsm cmd) cmd =
      { advsm with
          adv_directed :=
            (adv_params_rpa_reset osTime (adv_params_presets advsm cmd) cmd).adv_directed
          peer_addr :=
            (adv_params_rpa_reset osTime (adv_params_presets advsm cmd) cmd).peer_addr
          adv_rpa_timer :=
            (adv_params_rpa_reset osTime (adv_params_presets advsm cmd) cmd).adv_rpa_timer } := by
  by_cases hd : cmd 4 = BLE_HCI_ADV_TYPE_ADV_DIRECT_IND_HD ∨
      cmd 4 = BLE_HCI_ADV_TYPE_ADV_DIRECT_IND_LD <;>
    by_cases ho : cmd 5 > BLE_HCI_ADV_OWN_ADDR_RANDOM <;>
    simp [adv_params_rpa_reset, adv_params_presets, hd, ho]

set_option maxHeartbeats 2000000 in
/-- C2 (amended): while advertising is enabled the command fails with
CommandDisallowed and the context is completely untouched; when any parameter
check fails the status is non-success and all the parameter fields written on
the success path (`own_addr_type`, `peer_addr_type`, `adv_filter_policy`,
`adv_chanmask`, `adv_itvl_min`, `adv_itvl_max`, `adv_type`) — as well as every
other field except `adv_directed`, `peer_addr` and `adv_rpa_timer` — keep
their previous values; `adv_directed`, `peer_addr` and (under privacy)
`adv_rpa_timer` may however already have been overwritten before the failing
check runs. -/
theorem set_adv_params_failure_preserves_params (privacy : Bool) (osTime : Nat)
    (advsm : BleLLAdvSm) (cmd : Nat → Nat) :
    (advsm.enabled ≠ 0 →
       ble_ll_adv_set_adv_params privacy osTime advsm cmd =
         (BLE_ERR_CMD_DISALLOWED, advsm)) ∧
    ((ble_ll_adv_set_adv_params privacy osTime advsm cmd).1 ≠ BLE_ERR_SUCCESS →
       (ble_ll_adv_set_adv_params privacy osTime advsm cmd).2 =
         { advsm with
             adv_directed :=
               (ble_ll_adv_set_adv_params privacy osTime advsm cmd).2.adv_directed
             peer_addr :=
               (ble_ll_adv_set_adv_params privacy osTime advsm cmd).2.peer_addr
             adv_rpa_timer :=
               (ble_ll_adv_set_adv_params privacy osTime advsm cmd).2.adv_rpa_timer }) := by
  constructor
  · intro hen
    simp [ble_ll_adv_set_adv_params, hen]
  · intro hrc
    by_cases hen : advsm.enabled ≠ 0
    · simp [ble_ll_adv_set_adv_params, hen]
    · unfold ble_ll_adv_set_adv_params at hrc ⊢
      simp only [if_neg hen] at hrc ⊢
      split_ifs at hrc ⊢ <;>
        first
          | exact adv_params_presets_shape advsm cmd
          | exact adv_params_rpa_reset_shape osTime advsm cmd
          | simp_all [BLE_ERR_SUCCESS]

/-- Advertising context previously configured for directed advertising. -/
def wDirSm : BleLLAdvSm := { ble_ll_adv_init with adv_directed := 1 }

/-- ADV_IND parameter command with valid intervals but an empty (invalid)
channel mask. -/
def wCmdBadChan : Nat → Nat :=
  fun i => [0, 8, 0, 8, 0, 0, 0, 0, 0, 0, 0, 0, 0, 0, 0].getD i 0

/-- C2 counterexample: a command rejected with InvalidParams (empty channel
mask) has already cleared `adv_directed`, so the advertising context is not
left completely unchanged as the claim states. -/
theorem set_adv_params_mutation_counterexample :
    (ble_ll_adv_set_adv_params false 0 wDirSm wCmdBadChan).1 =
      BLE_ERR_INV_HCI_CMD_PARMS ∧
    (ble_ll_adv_set_adv_params false 0 wDirSm wCmdBadChan).2.adv_directed ≠
      wDirSm.adv_directed :=
  ⟨by decide, by decide⟩

/-- C2 witness: the disallowed case leaves the context untouched, and a
rejected command leaves every field except the three pre-validation writes
untouched. -/
theorem set_adv_params_failure_preserves_params_witness :
    ble_ll_adv_set_adv_params false 0 wEnabledSm wCmdBadChan =
      (BLE_ERR_CMD_DISALLOWED, wEnabledSm) ∧
    (ble_ll_adv_set_adv_params false 0 wDirSm wCmdBadChan).2 =
      { wDirSm with
          adv_directed :=
            (ble_ll_adv_set_adv_params false 0 wDirSm wCmdBadChan).2.adv_directed
          peer_addr :=
            (ble_ll_adv_set_adv_params false 0 wDirSm wCmdBadChan).2.peer_addr
          adv_rpa_timer :=
            (ble_ll_adv_set_adv_params false 0 wDirSm wCmdBadChan).2.adv_rpa_timer } :=
  ⟨(set_adv_params_failure_preserves_params false 0 wEnabledSm wCmdBadChan).1
      (by decide),
   (set_adv_params_failure_preserves_params false 0 wDirSm wCmdBadChan).2
      (by decide)⟩

/-! ## Preservation lemmas for the RPA check and the event-done channel stage -/

/-- The RPA rotation check never touches the advertising type. -/
theorem chk_rpa_adv_type (env : LLEnv) (s : BleLLAdvSm) :
    (ble_ll_adv_chk_rpa_timeout env s).adv_type = s.adv_type := by
  simp only [ble_ll_adv_chk_rpa_timeout]
  split_ifs <;> rfl

/-- The RPA rotation check never touches the interval maximum. -/
theorem chk_rpa_adv_itvl_max (env : LLEnv) (s : BleLLAdvSm) :
    (ble_ll_adv_chk_rpa_timeout env s).adv_itvl_max = s.adv_itvl_max := by
  simp only [ble_ll_adv_chk_rpa_timeout]
  split_ifs <;> rfl

/-- The RPA rotation check never touches the resolved interval. -/
theorem chk_rpa_adv_itvl_usecs (env : LLEnv) (s : BleLLAdvSm) :
    (ble_ll_adv_chk_rpa_timeout env s).adv_itvl_usecs = s.adv_itvl_usecs := by
  simp only [ble_ll_adv_chk_rpa_timeout]
  split_ifs <;> rfl

/-- The RPA rotation check never touches the event start time. -/
theorem chk_rpa_adv_event_start_time (env : LLEnv) (s : BleLLAdvSm) :
    (ble_ll_adv_chk_rpa_timeout env s).adv_event_start_time =
      s.adv_event_start_time := by
  simp only [ble_ll_adv_chk_rpa_timeout]
  split_ifs <;> rfl

/-- The RPA rotation check never touches the PDU start time. -/
theorem chk_rpa_adv_pdu_start_time (env : LLEnv) (s : BleLLAdvSm) :
    (ble_ll_adv_chk_rpa_timeout env s).adv_pdu_start_time =
      s.adv_pdu_start_time := by
  simp only [ble_ll_adv_chk_rpa_timeout]
  split_ifs <;> rfl

/-- The RPA rotation check never touches the high-duty deadline. -/
theorem chk_rpa_adv_dir_hd_end_time (env : LLEnv) (s : BleLLAdvSm) :
    (ble_ll_adv_chk_rpa_timeout env s).adv_dir_hd_end_time =
      s.adv_dir_hd_end_time := by
  simp only [ble_ll_adv_chk_rpa_timeout]
  split_ifs <;> rfl

/-- The RPA rotation check never touches the enabled flag. -/
theorem chk_rpa_enabled (env : LLEnv) (s : BleLLAdvSm) :
    (ble_ll_adv_chk_rpa_timeout env s).enabled = s.enabled := by
  simp only [ble_ll_adv_chk_rpa_timeout]
  split_ifs <;> rfl

/-- The channel / next-event stage of event-done never changes the type. -/
theorem chan_upd_adv_type (env : EvEnv) (fuel : Nat) (s : BleLLAdvSm) :
    (adv_event_done_chan_upd env fuel s).adv_type = s.adv_type := by
  simp only [adv_event_done_chan_upd]
  split_ifs <;> rfl

/-- The channel / next-event stage of event-done never changes the enabled
flag. -/
theorem chan_upd_enabled (env : EvEnv) (fuel : Nat) (s : BleLLAdvSm) :
    (adv_event_done_chan_upd env fuel s).enabled = s.enabled := by
  simp only [adv_event_done_chan_upd]
  split_ifs <;> rfl

/-- The channel / next-event stage of event-done never changes the high-duty
deadline. -/
theorem chan_upd_adv_dir_hd_end_time (env : EvEnv) (fuel : Nat) (s : BleLLAdvSm) :
    (adv_event_done_chan_upd env fuel s).adv_dir_hd_end_time =
      s.adv_dir_hd_end_time := by
  simp only [adv_event_done_chan_upd]
  split_ifs <;> rfl

/-- When the event just finished on its final channel and the freshly computed
start time is not in the past, the next event start time is the previous one
plus the tick-converted interval-plus-jitter (the catch-up loop does not
run). -/
theorem chan_upd_event_start_no_catchup (env : EvEnv) (fuel : Nat)
    (advsm : BleLLAdvSm)
    (hchan : advsm.adv_chan = ble_ll_adv_final_chan advsm.adv_chanmask)
    (hfut : 0 ≤ toInt32 (u32sub (u32sub (u32add advsm.adv_event_start_time
        (env.u2t (advsm.adv_itvl_usecs +
          (if advsm.adv_type ≠ BLE_HCI_ADV_TYPE_ADV_DIRECT_IND_HD then
            env.rand 0 % (BLE_LL_ADV_DELAY_MS_MAX * 1000) else 0))))
        (env.u2t XCVR_TX_SCHED_DELAY_USECS)) env.now)) :
    (adv_event_done_chan_upd env fuel advsm).adv_event_start_time =
      u32add advsm.adv_event_start_time
        (env.u2t (advsm.adv_itvl_usecs +
          (if advsm.adv_type ≠ BLE_HCI_ADV_TYPE_ADV_DIRECT_IND_HD then
            env.rand 0 % (BLE_LL_ADV_DELAY_MS_MAX * 1000) else 0))) := by
  unfold adv_event_done_chan_upd
  rw [if_pos hchan]
  dsimp only
  split_ifs <;> simp_all <;> omega

/-! ## Claim C5: resolved interval and event spacing -/

set_option maxHeartbeats 2000000 in
/-- C5: the interval resolved at enable time is the fixed high-duty maximum
for high-duty directed advertising (ignoring the host-supplied bounds) and
`interval_max` advertising-interval units (625 µs) otherwise; and whenever an
advertising event ends on its final channel and no catch-up is needed, the
next event start time is the previous one plus that interval plus a fresh
jitter — which is 0 for high-duty directed advertising and lies in
`[0, BLE_LL_ADV_DELAY_MS_MAX ms)` for every other type. -/
theorem adv_interval_resolution_and_event_spacing :
    (∀ env advsm, (ble_ll_adv_sm_start env advsm).1 = BLE_ERR_SUCCESS →
       (ble_ll_adv_sm_start env advsm).2.adv_itvl_usecs =
         (if advsm.adv_type = BLE_HCI_ADV_TYPE_ADV_DIRECT_IND_HD then
            BLE_LL_ADV_PDU_ITVL_HD_MS_MAX
          else advsm.adv_itvl_max * BLE_LL_ADV_ITVL)) ∧
    (∀ env fuel advsm,
       advsm.adv_chan = ble_ll_adv_final_chan advsm.adv_chanmask →
       0 ≤ toInt32 (u32sub (u32sub (u32add advsm.adv_event_start_time
             (env.u2t (advsm.adv_itvl_usecs +
               (if advsm.adv_type ≠ BLE_HCI_ADV_TYPE_ADV_DIRECT_IND_HD then
                 env.rand 0 % (BLE_LL_ADV_DELAY_MS_MAX * 1000) else 0))))
             (env.u2t XCVR_TX_SCHED_DELAY_USECS)) env.now) →
       (ble_ll_adv_event_done env fuel advsm).1.adv_event_start_time =
         u32add advsm.adv_event_start_time
           (env.u2t (advsm.adv_itvl_usecs +
             (if advsm.adv_type ≠ BLE_HCI_ADV_TYPE_ADV_DIRECT_IND_HD then
               env.rand 0 % (BLE_LL_ADV_DELAY_MS_MAX * 1000) else 0))) ∧
       (if advsm.adv_type ≠ BLE_HCI_ADV_TYPE_ADV_DIRECT_IND_HD then
           env.rand 0 % (BLE_LL_ADV_DELAY_MS_MAX * 1000) else 0) <
         BLE_LL_ADV_DELAY_MS_MAX * 1000) := by
  constructor
  · intro env advsm h
    by_cases hr : advsm.own_addr_type = BLE_HCI_ADV_OWN_ADDR_RANDOM ∧
        ¬ env.random_addr_valid
    · simp [ble_ll_adv_sm_start, hr, BLE_ERR_CMD_DISALLOWED, BLE_ERR_SUCCESS] at h
    · by_cases hp : env.privacy <;>
        simp only [ble_ll_adv_sm_start, if_neg hr, hp, if_true, if_false,
          ite_true, ite_false] <;>
        split_ifs <;>
        simp_all [chk_rpa_adv_type, chk_rpa_adv_itvl_max]
  · intro env fuel advsm hchan hfut
    have hA := chan_upd_event_start_no_catchup env fuel advsm hchan hfut
    constructor
    · simp only [ble_ll_adv_event_done]
      split_ifs <;> simp_all [chk_rpa_adv_event_start_time]
    · simp only [BLE_LL_ADV_DELAY_MS_MAX]
      split_ifs <;> omega

/-- Event-done environment fixture: identity tick conversion, clock at 0,
every `rand()` draw 3, privacy off. -/
def wEvEnv : EvEnv :=
  { now := 0, rand := fun _ => 3, u2t := fun x => x, reschedule_ok := true
    ll := wLLEnv }

/-- An enabled ADV_IND advertiser whose event just ended on channel 39. -/
def wEventSm : BleLLAdvSm :=
  { ble_ll_adv_init with enabled := 1, adv_chan := 39, adv_itvl_usecs := 1000 }

/-- C5 witness: enabling the default context resolves the interval to
0x800 × 625 µs, and an event ending at time 0 with interval 1000 µs and
jitter 3 schedules the next event at 1003. -/
theorem adv_interval_resolution_and_event_spacing_witness :
    (ble_ll_adv_sm_start wLLEnv ble_ll_adv_init).2.adv_itvl_usecs = 2048 * 625 ∧
    (ble_ll_adv_event_done wEvEnv 5 wEventSm).1.adv_event_start_time = 1003 :=
  ⟨(adv_interval_resolution_and_event_spacing.1 wLLEnv ble_ll_adv_init
      (by decide)).trans (by decide),
   ((adv_interval_resolution_and_event_spacing.2 wEvEnv 5 wEventSm
      (by decide) (by decide)).1).trans (by decide)⟩

/-! ## Claim C6: the high-duty directed 1.28 s timeout -/

/-- An event-done invocation either sends no completion status, or sends
exactly the direct-advertising-timeout status and simultaneously clears the
enabled flag. -/
theorem event_done_events_shape (env : EvEnv) (fuel : Nat) (s : BleLLAdvSm) :
    (ble_ll_adv_event_done env fuel s).2.1 = [] ∨
    ((ble_ll_adv_event_done env fuel s).2.1 = [BLE_ERR_DIR_ADV_TMO] ∧
     (ble_ll_adv_event_done env fuel s).1.enabled = 0) := by
  simp only [ble_ll_adv_event_done]
  split_ifs <;> simp

/-- No event-done chain can start from a disabled advertiser (the C code
asserts `advsm->enabled` on entry), so such a chain is empty and reports
nothing. -/
theorem adv_ev_chain_from_disabled {s t : BleLLAdvSm} {n : Nat}
    (h : AdvEvChain s t n) (h0 : s.enabled = 0) : n = 0 := by
  cases h with
  | nil => rfl
  | step env fuel s₀ s' t' evs r m hen heq htail => exact absurd h0 hen

/-- C6: the high-duty deadline is fixed 1.28 s (BLE_LL_ADV_STATE_HD_MAX ms)
after the first scheduled advertisement's event start time; when an enabled
high-duty directed advertiser finishes an event-done pass with its next PDU
start time at or past that deadline it clears the enabled flag, sends exactly
the direct-advertising-timeout completion status and schedules nothing, and
below the deadline it sends nothing; and along any chain of event-done
invocations (each of which requires the enabled flag, so nothing runs after
the self-disable) the timeout status is sent at most once. -/
theorem hd_adv_timeout_disables_once :
    (∀ u2t advsm sch_start,
       (ble_ll_adv_scheduled u2t advsm sch_start).adv_dir_hd_end_time =
         u32add (ble_ll_adv_scheduled u2t advsm sch_start).adv_event_start_time
           (u2t (BLE_LL_ADV_STATE_HD_MAX * 1000))) ∧
    (∀ env fuel advsm s' evs r,
       advsm.enabled ≠ 0 →
       advsm.adv_type = BLE_HCI_ADV_TYPE_ADV_DIRECT_IND_HD →
       ble_ll_adv_event_done env fuel advsm = (s', evs, r) →
       ((s'.adv_dir_hd_end_time ≤ s'.adv_pdu_start_time →
           s'.enabled = 0 ∧ evs = [BLE_ERR_DIR_ADV_TMO] ∧ r = false) ∧
        (s'.adv_pdu_start_time < s'.adv_dir_hd_end_time → evs = []))) ∧
    (∀ s t n, AdvEvChain s t n → n ≤ 1) := by
  refine ⟨?_, ?_, ?_⟩
  · intro u2t advsm sch_start
    rfl
  · intro env fuel advsm s' evs r hen htype heq
    simp only [ble_ll_adv_event_done] at heq
    by_cases hc : (adv_event_done_chan_upd env fuel advsm).adv_type =
        BLE_HCI_ADV_TYPE_ADV_DIRECT_IND_HD ∧
        (adv_event_done_chan_upd env fuel advsm).adv_pdu_start_time ≥
          (adv_event_done_chan_upd env fuel advsm).adv_dir_hd_end_time
    · rw [if_pos hc, Prod.mk.injEq, Prod.mk.injEq] at heq
      obtain ⟨h1, h2, h3⟩ := heq
      subst h1
      subst h2
      subst h3
      obtain ⟨hc1, hc2⟩ := hc
      refine ⟨fun _ => ⟨rfl, rfl, rfl⟩, fun hlt => ?_⟩
      have hlt' : (adv_event_done_chan_upd env fuel advsm).adv_pdu_start_time <
          (adv_event_done_chan_upd env fuel advsm).adv_dir_hd_end_time := hlt
      omega
    · rw [if_neg hc, Prod.mk.injEq, Prod.mk.injEq] at heq
      obtain ⟨h1, h2, h3⟩ := heq
      subst h2
      subst h3
      have hpdu : s'.adv_pdu_start_time =
          (adv_event_done_chan_upd env fuel advsm).adv_pdu_start_time := by
        rw [← h1]
        by_cases hp : env.ll.privacy <;> simp [hp, chk_rpa_adv_pdu_start_time]
      have hhd : s'.adv_dir_hd_end_time =
          (adv_event_done_chan_upd env fuel advsm).adv_dir_hd_end_time := by
        rw [← h1]
        by_cases hp : env.ll.privacy <;> simp [hp, chk_rpa_adv_dir_hd_end_time]
      have hAtype : (adv_event_done_chan_upd env fuel advsm).adv_type =
          BLE_HCI_ADV_TYPE_ADV_DIRECT_IND_HD := by
        rw [chan_upd_adv_type]
        exact htype
      have hlt : (adv_event_done_chan_upd env fuel advsm).adv_pdu_start_time <
          (adv_event_done_chan_upd env fuel advsm).adv_dir_hd_end_time := by
        by_contra hge
        exact hc ⟨hAtype, by omega⟩
      refine ⟨fun hge => ?_, fun _ => rfl⟩
      rw [hhd, hpdu] at hge
      omega
  · intro s t n h
    induction h with
    | nil => omega
    | step env fuel s₀ s' t' evs r m hen heq htail ih =>
      have hs := event_done_events_shape env fuel s₀
      rw [heq] at hs
      rcases hs with h1 | ⟨h1, h2⟩
      · have h1' : evs = [] := h1
        simpa [h1'] using ih
      · have h1' : evs = [BLE_ERR_DIR_ADV_TMO] := h1
        have h2' : s'.enabled = 0 := h2
        have hz : m = 0 := adv_ev_chain_from_disabled htail h2'
        rw [h1', hz]
        decide

/-- An enabled high-duty directed advertiser whose deadline has long passed. -/
def wHdSm : BleLLAdvSm :=
  { ble_ll_adv_init with
      enabled := 1
      adv_type := 1
      adv_chan := 39
      adv_itvl_usecs := 3750
      adv_dir_hd_end_time := 100 }

/-- C6 witness: the concrete high-duty advertiser past its deadline is
disabled with exactly one timeout status and no reschedule, and an empty
event-done chain reports the status zero times (at most once). -/
theorem hd_adv_timeout_disables_once_witness :
    ((ble_ll_adv_event_done wEvEnv 5 wHdSm).1.enabled = 0 ∧
     (ble_ll_adv_event_done wEvEnv 5 wHdSm).2.1 = [BLE_ERR_DIR_ADV_TMO] ∧
     (ble_ll_adv_event_done wEvEnv 5 wHdSm).2.2 = false) ∧
    (0 : Nat) ≤ 1 :=
  ⟨(hd_adv_timeout_disables_once.2.1 wEvEnv 5 wHdSm
      (ble_ll_adv_event_done wEvEnv 5 wHdSm).1
      (ble_ll_adv_event_done wEvEnv 5 wHdSm).2.1
      (ble_ll_adv_event_done wEvEnv 5 wHdSm).2.2
      (by decide) (by decide) rfl).1 (by decide),
   hd_adv_timeout_disables_once.2.2 wHdSm wHdSm 0 (AdvEvChain.nil wHdSm)⟩

/-! ## Claims C7 and C8: scan requests and connect requests -/

/-- The requester of a received request passes the whitelist after the
optional RPA resolution: if privacy is on, the sender address is an RPA and
resolving is enabled, the request passes only if the hardware resolved the
RPA and the resolved identity is whitelisted; otherwise the sender address
itself must be whitelisted. -/
def adv_rx_wl_pass (env : RxEnv) (rxbuf : Nat → Nat) : Bool :=
  let txadd :=
    if rxbuf 0 &&& BLE_ADV_PDU_HDR_TXADD_MASK ≠ 0 then BLE_ADDR_TYPE_RANDOM
    else BLE_ADDR_TYPE_PUBLIC
  let peer := bufAddr rxbuf BLE_LL_PDU_HDR_LEN
  if env.privacy ∧ env.is_rpa peer txadd ∧ env.resolv_enabled then
    if env.hw_resolv_match ≥ 0 then
      env.whitelist_match (env.rl_identity_addr env.hw_resolv_match)
        (env.rl_addr_type env.hw_resolv_match) true
    else false
  else env.whitelist_match peer txadd false

set_option maxHeartbeats 2000000 in
/-- C7: assuming the scan-response buffer allocation and the PHY transmit
succeed, a received scan request is answered with a scan response iff the
advertising type is ADV_IND or ADV_SCAN_IND, the request's AdvA equals the
address being advertised, and either scan-request filtering is off
(`adv_filter_policy` bit 0 clear) or the requester passes the
whitelist/resolution check. -/
theorem scan_req_answered_iff (env : RxEnv) (advsm : BleLLAdvSm)
    (rxbuf : Nat → Nat) (halloc : env.scan_rsp_alloc_ok = true)
    (hphy : env.phy_tx_rc = 0) :
    (scan_req_pipeline env advsm rxbuf).1.scan_rsp_txd = true ↔
      ((advsm.adv_type = BLE_HCI_ADV_TYPE_ADV_IND ∨
        advsm.adv_type = BLE_HCI_ADV_TYPE_ADV_SCAN_IND) ∧
       advsm.adva = bufAddr rxbuf (BLE_LL_PDU_HDR_LEN + BLE_DEV_ADDR_LEN) ∧
       (advsm.adv_filter_policy &&& 1 = 0 ∨ adv_rx_wl_pass env rxbuf = true)) := by
  simp only [scan_req_pipeline, ble_ll_adv_rx_isr_start, ble_ll_adv_rx_req,
    adv_rx_wl_pass, BleMbufFlags.clear, BLE_ADV_PDU_TYPE_SCAN_REQ,
    BLE_ADV_PDU_TYPE_CONNECT_REQ, halloc, hphy]
  split_ifs <;> simp_all <;>
    first
      | tauto
      | (refine ⟨by tauto, ?_⟩
         rcases Nat.mod_two_eq_zero_or_one advsm.adv_filter_policy with hf | hf
         · exact Or.inl hf
         · simp_all)

/-- Receive-path environment fixture: privacy off, whitelist and connection
layer accept everything, buffer and PHY succeed. -/
def wRxEnv : RxEnv :=
  { privacy := false, resolv_enabled := false, is_rpa := fun _ _ => false
    hw_resolv_match := -1, rl_identity_addr := fun _ => List.replicate 6 0
    rl_addr_type := fun _ => 0, whitelist_match := fun _ _ _ => true
    scan_rsp_alloc_ok := true, phy_tx_rc := 0, beg_cputime := 0
    tx_dur_usecs := fun n => (n + 2) * 8, slave_start := fun _ _ _ => true }

/-- All-zero received PDU: its AdvA equals the freshly initialized
advertiser's (all-zero) advertising address. -/
def wRx0 : Nat → Nat := fun _ => 0

/-- C7 witness: an ADV_IND advertiser with filtering off answers a matching
scan request. -/
theorem scan_req_answered_iff_witness :
    (scan_req_pipeline wRxEnv ble_ll_adv_init wRx0).1.scan_rsp_txd = true :=
  (scan_req_answered_iff wRxEnv ble_ll_adv_init wRx0 rfl rfl).mpr
    ⟨Or.inl rfl, by decide, Or.inl (by decide)⟩

/-- Device match for a received connect request: the request's AdvA is ours,
and connect-request filtering (`adv_filter_policy` bit 1) is off or the
initiator passes the whitelist/resolution check. -/
def conn_req_devmatch (env : RxEnv) (advsm : BleLLAdvSm)
    (rxbuf : Nat → Nat) : Prop :=
  advsm.adva = bufAddr rxbuf (BLE_LL_PDU_HDR_LEN + BLE_DEV_ADDR_LEN) ∧
  (advsm.adv_filter_policy &&& 2 = 0 ∨ adv_rx_wl_pass env rxbuf = true)

instance (env : RxEnv) (advsm : BleLLAdvSm) (rxbuf : Nat → Nat) :
    Decidable (conn_req_devmatch env advsm rxbuf) := by
  unfold conn_req_devmatch
  infer_instance

/-- The received connect request's InitA was resolved by the privacy
hardware. -/
def conn_req_resolved (env : RxEnv) (rxbuf : Nat → Nat) : Prop :=
  env.privacy ∧
  env.is_rpa (bufAddr rxbuf BLE_LL_PDU_HDR_LEN)
    (if rxbuf 0 &&& BLE_ADV_PDU_HDR_TXADD_MASK ≠ 0 then BLE_ADDR_TYPE_RANDOM
     else BLE_ADDR_TYPE_PUBLIC) ∧
  env.resolv_enabled ∧
  env.hw_resolv_match ≥ 0

instance (env : RxEnv) (rxbuf : Nat → Nat) :
    Decidable (conn_req_resolved env rxbuf) := by
  unfold conn_req_resolved
  infer_instance

/-- For directed advertising, the initiator's (possibly resolved) address and
address type must equal the configured peer identity. -/
def conn_req_ident_ok (env : RxEnv) (advsm : BleLLAdvSm)
    (rxbuf : Nat → Nat) : Prop :=
  (advsm.adv_type = BLE_HCI_ADV_TYPE_ADV_DIRECT_IND_HD ∨
   advsm.adv_type = BLE_HCI_ADV_TYPE_ADV_DIRECT_IND_LD) →
    (if conn_req_resolved env rxbuf then
       env.rl_addr_type env.hw_resolv_match = advsm.peer_addr_type ∧
       advsm.peer_addr = env.rl_identity_addr env.hw_resolv_match
     else
       (if rxbuf 0 &&& BLE_ADV_PDU_HDR_TXADD_MASK ≠ 0 then BLE_ADDR_TYPE_RANDOM
        else BLE_ADDR_TYPE_PUBLIC) = advsm.peer_addr_type ∧
       advsm.peer_addr = bufAddr rxbuf BLE_LL_PDU_HDR_LEN)

/-- The connection layer accepts the slave start for this connect request
(with the identity-rewritten receive buffer and identity address type under
privacy resolution). -/
def conn_req_slave_accepts (env : RxEnv) (rxbuf : Nat → Nat) : Prop :=
  let addr_type0 :=
    if rxbuf 0 &&& BLE_ADV_PDU_HDR_TXADD_MASK ≠ 0 then BLE_ADDR_TYPE_RANDOM
    else BLE_ADDR_TYPE_PUBLIC
  let addr_type :=
    if conn_req_resolved env rxbuf then env.rl_addr_type env.hw_resolv_match + 2
    else addr_type0
  let rxbuf' : Nat → Nat :=
    if conn_req_resolved env rxbuf then
      fun i =>
        if BLE_LL_PDU_HDR_LEN ≤ i ∧ i < BLE_LL_PDU_HDR_LEN + BLE_DEV_ADDR_LEN
        then (env.rl_identity_addr env.hw_resolv_match).getD
          (i - BLE_LL_PDU_HDR_LEN) 0
        else rxbuf i
    else rxbuf
  env.slave_start rxbuf'
    (u32add env.beg_cputime
      (env.tx_dur_usecs (rxbuf 1 &&& BLE_ADV_PDU_HDR_LEN_MASK)))
    addr_type = true


set_option maxHeartbeats 2000000 in
/-- Evaluation of `ble_ll_adv_rx_req` for a connect request: the return code
is always `-1` (no scan response is sent for connect requests),
`adv_rpa_index` is latched exactly when the privacy resolution block runs,
and the header flags record resolution and device match. -/
theorem rx_req_conn_spec (env : RxEnv) (advsm : BleLLAdvSm) (rxbuf : Nat → Nat) :
    ble_ll_adv_rx_req env advsm BLE_ADV_PDU_TYPE_CONNECT_REQ rxbuf
        BleMbufFlags.clear =
      ((-1 : Int),
       (if advsm.adva = bufAddr rxbuf (BLE_LL_PDU_HDR_LEN + BLE_DEV_ADDR_LEN) ∧
           env.privacy ∧
           env.is_rpa (bufAddr rxbuf BLE_LL_PDU_HDR_LEN)
             (if rxbuf 0 &&& BLE_ADV_PDU_HDR_TXADD_MASK ≠ 0 then
               BLE_ADDR_TYPE_RANDOM else BLE_ADDR_TYPE_PUBLIC) ∧
           env.resolv_enabled
        then { advsm with adv_rpa_index := env.hw_resolv_match }
        else advsm),
       { resolved :=
           if advsm.adva = bufAddr rxbuf (BLE_LL_PDU_HDR_LEN + BLE_DEV_ADDR_LEN) ∧
              conn_req_resolved env rxbuf then true else false
         devmatch := if conn_req_devmatch env advsm rxbuf then true else false
         scan_rsp_txd := false }) := by
  by_cases h1 : advsm.adva = bufAddr rxbuf (BLE_LL_PDU_HDR_LEN + BLE_DEV_ADDR_LEN)
  case neg =>
    simp [ble_ll_adv_rx_req, conn_req_devmatch, conn_req_resolved,
      BleMbufFlags.clear, BLE_ADV_PDU_TYPE_SCAN_REQ,
      BLE_ADV_PDU_TYPE_CONNECT_REQ, h1]
  case pos =>
  by_cases h2 : env.privacy ∧
      env.is_rpa (bufAddr rxbuf BLE_LL_PDU_HDR_LEN)
        (if rxbuf 0 &&& BLE_ADV_PDU_HDR_TXADD_MASK = 0 then
          BLE_ADDR_TYPE_PUBLIC else BLE_ADDR_TYPE_RANDOM) ∧
      env.resolv_enabled
  · by_cases h3 : env.hw_resolv_match ≥ 0
    · by_cases h4 : advsm.adv_filter_policy &&& 2 = 0
      · simp [ble_ll_adv_rx_req, conn_req_devmatch, conn_req_resolved,
          adv_rx_wl_pass, BleMbufFlags.clear, BLE_ADV_PDU_TYPE_SCAN_REQ,
          BLE_ADV_PDU_TYPE_CONNECT_REQ, h1, h2, h3, h4]
      · by_cases h5 : env.whitelist_match (env.rl_identity_addr env.hw_resolv_match)
            (env.rl_addr_type env.hw_resolv_match) true = true
        · simp [ble_ll_adv_rx_req, conn_req_devmatch, conn_req_resolved,
            adv_rx_wl_pass, BleMbufFlags.clear, BLE_ADV_PDU_TYPE_SCAN_REQ,
            BLE_ADV_PDU_TYPE_CONNECT_REQ, h1, h2, h3, h4, h5]
        · simp [ble_ll_adv_rx_req, conn_req_devmatch, conn_req_resolved,
            adv_rx_wl_pass, BleMbufFlags.clear, BLE_ADV_PDU_TYPE_SCAN_REQ,
            BLE_ADV_PDU_TYPE_CONNECT_REQ, h1, h2, h3, h4, h5]
    · by_cases h4 : advsm.adv_filter_policy &&& 2 = 0
      · simp [ble_ll_adv_rx_req, conn_req_devmatch, conn_req_resolved,
          adv_rx_wl_pass, BleMbufFlags.clear, BLE_ADV_PDU_TYPE_SCAN_REQ,
          BLE_ADV_PDU_TYPE_CONNECT_REQ, h1, h2, h3, h4]
      · simp [ble_ll_adv_rx_req, conn_req_devmatch, conn_req_resolved,
          adv_rx_wl_pass, BleMbufFlags.clear, BLE_ADV_PDU_TYPE_SCAN_REQ,
          BLE_ADV_PDU_TYPE_CONNECT_REQ, h1, h2, h3, h4]
  · by_cases h4 : advsm.adv_filter_policy &&& 2 = 0
    · simp [ble_ll_adv_rx_req, conn_req_devmatch, conn_req_resolved,
        adv_rx_wl_pass, BleMbufFlags.clear, BLE_ADV_PDU_TYPE_SCAN_REQ,
        BLE_ADV_PDU_TYPE_CONNECT_REQ, h1, h2, h4] <;> tauto
    · by_cases h5 : env.whitelist_match (bufAddr rxbuf BLE_LL_PDU_HDR_LEN)
          (if rxbuf 0 &&& BLE_ADV_PDU_HDR_TXADD_MASK = 0 then
            BLE_ADDR_TYPE_PUBLIC else BLE_ADDR_TYPE_RANDOM) false = true
      · simp [ble_ll_adv_rx_req, conn_req_devmatch, conn_req_resolved,
          adv_rx_wl_pass, BleMbufFlags.clear, BLE_ADV_PDU_TYPE_SCAN_REQ,
          BLE_ADV_PDU_TYPE_CONNECT_REQ, h1, h2, h4, h5] <;> tauto
      · simp [ble_ll_adv_rx_req, conn_req_devmatch, conn_req_resolved,
          adv_rx_wl_pass, BleMbufFlags.clear, BLE_ADV_PDU_TYPE_SCAN_REQ,
          BLE_ADV_PDU_TYPE_CONNECT_REQ, h1, h2, h4, h5] <;> tauto

set_option maxHeartbeats 2000000 in
/-- Behaviour of `ble_ll_adv_conn_req_rxd` on a device-matched connect
request whose header flags are consistent with the resolution outcome: the
connection starts iff the directed-peer identity check and the connection
layer's slave start succeed, and the advertiser is stopped exactly then. -/
theorem conn_req_rxd_spec (env : RxEnv) (advsm : BleLLAdvSm) (rxbuf : Nat → Nat)
    (flags : BleMbufFlags) (hen : advsm.enabled ≠ 0) (hdm : flags.devmatch = true)
    (hres : (env.privacy = true ∧ flags.resolved = true) ↔
      conn_req_resolved env rxbuf)
    (hidx : conn_req_resolved env rxbuf →
      advsm.adv_rpa_index = env.hw_resolv_match) :
    ((ble_ll_adv_conn_req_rxd env advsm rxbuf flags).1 = true ↔
       (conn_req_ident_ok env advsm rxbuf ∧ conn_req_slave_accepts env rxbuf)) ∧
    ((ble_ll_adv_conn_req_rxd env advsm rxbuf flags).2.enabled = 0 ↔
       (ble_ll_adv_conn_req_rxd env advsm rxbuf flags).1 = true) := by
  by_cases hr : conn_req_resolved env rxbuf
  · obtain ⟨hpriv, hfres⟩ := hres.mpr hr
    have hidx' := hidx hr
    simp only [ble_ll_adv_conn_req_rxd, ble_ll_adv_sm_stop, conn_req_ident_ok,
      conn_req_slave_accepts, hdm, hpriv, hfres, hidx', hr]
    split_ifs <;> simp_all <;> tauto
  · have hnres : ¬ (env.privacy = true ∧ flags.resolved = true) :=
      fun hc => hr (hres.mp hc)
    simp only [ble_ll_adv_conn_req_rxd, ble_ll_adv_sm_stop, conn_req_ident_ok,
      conn_req_slave_accepts, hdm]
    split_ifs <;> simp_all <;> tauto

set_option maxHeartbeats 2000000 in
/-- C8: the connect-request pipeline starts a connection iff the advertising
type is connectable (ADV_IND or one of the two directed types), the
filter/device-match check passed, for directed advertising the initiator's
(possibly resolved) address and type equal the configured peer identity, and
the connection layer accepts the slave start; and the advertiser is stopped
(enabled cleared) exactly when a connection started. -/
theorem conn_req_starts_connection_iff (env : RxEnv) (advsm : BleLLAdvSm)
    (rxbuf : Nat → Nat) (hen : advsm.enabled ≠ 0) :
    ((conn_req_pipeline env advsm rxbuf).1 = true ↔
      ((advsm.adv_type = BLE_HCI_ADV_TYPE_ADV_IND ∨
        advsm.adv_type = BLE_HCI_ADV_TYPE_ADV_DIRECT_IND_HD ∨
        advsm.adv_type = BLE_HCI_ADV_TYPE_ADV_DIRECT_IND_LD) ∧
       conn_req_devmatch env advsm rxbuf ∧
       conn_req_ident_ok env advsm rxbuf ∧
       conn_req_slave_accepts env rxbuf)) ∧
    ((conn_req_pipeline env advsm rxbuf).2.enabled = 0 ↔
      (conn_req_pipeline env advsm rxbuf).1 = true) := by
  by_cases hgate : advsm.adv_type = BLE_HCI_ADV_TYPE_ADV_DIRECT_IND_HD ∨
      advsm.adv_type = BLE_HCI_ADV_TYPE_ADV_DIRECT_IND_LD ∨
      advsm.adv_type = BLE_HCI_ADV_TYPE_ADV_IND
  case neg =>
    constructor
    · simp [conn_req_pipeline, ble_ll_adv_rx_isr_start,
        BLE_ADV_PDU_TYPE_SCAN_REQ, BLE_ADV_PDU_TYPE_CONNECT_REQ, hgate]
      tauto
    · simp [conn_req_pipeline, ble_ll_adv_rx_isr_start,
        BLE_ADV_PDU_TYPE_SCAN_REQ, BLE_ADV_PDU_TYPE_CONNECT_REQ, hgate, hen]
  case pos =>
  have hpipe : conn_req_pipeline env advsm rxbuf =
      ble_ll_adv_conn_req_rxd env
        (if advsm.adva = bufAddr rxbuf (BLE_LL_PDU_HDR_LEN + BLE_DEV_ADDR_LEN) ∧
            env.privacy ∧
            env.is_rpa (bufAddr rxbuf BLE_LL_PDU_HDR_LEN)
              (if rxbuf 0 &&& BLE_ADV_PDU_HDR_TXADD_MASK ≠ 0 then
                BLE_ADDR_TYPE_RANDOM else BLE_ADDR_TYPE_PUBLIC) ∧
            env.resolv_enabled
         then { advsm with adv_rpa_index := env.hw_resolv_match }
         else advsm) rxbuf
        { resolved :=
            if advsm.adva = bufAddr rxbuf (BLE_LL_PDU_HDR_LEN + BLE_DEV_ADDR_LEN) ∧
               conn_req_resolved env rxbuf then true else false
          devmatch := if conn_req_devmatch env advsm rxbuf then true else false
          scan_rsp_txd := false } := by
    simp only [conn_req_pipeline, rx_req_conn_spec]
    simp [ble_ll_adv_rx_isr_start, BLE_ADV_PDU_TYPE_SCAN_REQ,
      BLE_ADV_PDU_TYPE_CONNECT_REQ, hgate]
  rw [hpipe]
  set A1 : BleLLAdvSm :=
    (if advsm.adva = bufAddr rxbuf (BLE_LL_PDU_HDR_LEN + BLE_DEV_ADDR_LEN) ∧
        env.privacy ∧
        env.is_rpa (bufAddr rxbuf BLE_LL_PDU_HDR_LEN)
          (if rxbuf 0 &&& BLE_ADV_PDU_HDR_TXADD_MASK ≠ 0 then
            BLE_ADDR_TYPE_RANDOM else BLE_ADDR_TYPE_PUBLIC) ∧
        env.resolv_enabled
     then { advsm with adv_rpa_index := env.hw_resolv_match }
     else advsm) with hA1
  set F1 : BleMbufFlags :=
    { resolved :=
        if advsm.adva = bufAddr rxbuf (BLE_LL_PDU_HDR_LEN + BLE_DEV_ADDR_LEN) ∧
           conn_req_resolved env rxbuf then true else false
      devmatch := if conn_req_devmatch env advsm rxbuf then true else false
      scan_rsp_txd := false } with hF1
  by_cases hdm : conn_req_devmatch env advsm rxbuf
  case neg =>
    constructor
    · rw [hF1]
      simp [ble_ll_adv_conn_req_rxd, hdm]
    · rw [hA1, hF1]
      simp [ble_ll_adv_conn_req_rxd, hdm]
      split_ifs <;> simp [hen]
  case pos =>
  have hadva : advsm.adva = bufAddr rxbuf (BLE_LL_PDU_HDR_LEN + BLE_DEV_ADDR_LEN) :=
    hdm.1
  have hen1 : A1.enabled ≠ 0 := by
    rw [hA1]
    split_ifs <;> exact hen
  have hdm1 : F1.devmatch = true := by
    rw [hF1]
    simp [hdm]
  have hres1 : (env.privacy = true ∧ F1.resolved = true) ↔
      conn_req_resolved env rxbuf := by
    rw [hF1]
    simp only [hadva, true_and]
    by_cases hr : conn_req_resolved env rxbuf
    · simp only [hr, if_true, ite_true, and_true, iff_true]
      unfold conn_req_resolved at hr
      exact hr.1
    · simp [hr]
  have hidx1 : conn_req_resolved env rxbuf →
      A1.adv_rpa_index = env.hw_resolv_match := by
    intro hr
    have hr' := hr
    unfold conn_req_resolved at hr'
    have hc : advsm.adva = bufAddr rxbuf (BLE_LL_PDU_HDR_LEN + BLE_DEV_ADDR_LEN) ∧
        env.privacy ∧
        env.is_rpa (bufAddr rxbuf BLE_LL_PDU_HDR_LEN)
          (if rxbuf 0 &&& BLE_ADV_PDU_HDR_TXADD_MASK ≠ 0 then
            BLE_ADDR_TYPE_RANDOM else BLE_ADDR_TYPE_PUBLIC) ∧
        env.resolv_enabled := ⟨hadva, hr'.1, hr'.2.1, hr'.2.2.1⟩
    rw [hA1, if_pos hc]
  have hspec := conn_req_rxd_spec env A1 rxbuf F1 hen1 hdm1 hres1 hidx1
  have hio_iff : conn_req_ident_ok env A1 rxbuf ↔
      conn_req_ident_ok env advsm rxbuf := by
    rw [hA1]
    by_cases hc : advsm.adva = bufAddr rxbuf (BLE_LL_PDU_HDR_LEN + BLE_DEV_ADDR_LEN) ∧
        env.privacy ∧
        env.is_rpa (bufAddr rxbuf BLE_LL_PDU_HDR_LEN)
          (if rxbuf 0 &&& BLE_ADV_PDU_HDR_TXADD_MASK ≠ 0 then
            BLE_ADDR_TYPE_RANDOM else BLE_ADDR_TYPE_PUBLIC) ∧
        env.resolv_enabled
    · rw [if_pos hc]
      exact Iff.rfl
    · rw [if_neg hc]
  have hmain := hspec.1
  rw [hio_iff] at hmain
  refine ⟨?_, hspec.2⟩
  rw [hmain]
  constructor
  · rintro ⟨hio, hsl⟩
    exact ⟨by tauto, hdm, hio, hsl⟩
  · rintro ⟨_, _, hio, hsl⟩
    exact ⟨hio, hsl⟩

/-- C8 witness: the freshly enabled ADV_IND advertiser, with filtering off
and a connection layer that accepts everything, starts a connection from a
matching connect request and is stopped by it. -/
theorem conn_req_starts_connection_iff_witness :
    wEnabledSm.enabled ≠ 0 ∧
    (conn_req_pipeline wRxEnv wEnabledSm wRx0).1 = true ∧
    (conn_req_pipeline wRxEnv wEnabledSm wRx0).2.enabled = 0 := by
  have h := conn_req_starts_connection_iff wRxEnv wEnabledSm wRx0 (by decide)
  have hstart : (conn_req_pipeline wRxEnv wEnabledSm wRx0).1 = true :=
    h.1.mpr ⟨Or.inl rfl, by decide,
      fun hc => by rcases hc with hc | hc <;> exact absurd hc (by decide), rfl⟩
  exact ⟨by decide, hstart, h.2.mpr hstart⟩
